import Mathlib

/-!
Verification development for the finance-monitor repository.

The indicator engine (analysis/indicators.py, `TechnicalIndicators`) and the
multi-timeframe strategy scorer (analysis/strategy.py, `TradingStrategy`) are
embedded below.  Pandas/NumPy floating-point series are modelled as lists of
`FVal`: an exact rational together with the two IEEE special classes the code
relies on (signed infinities and NaN).  Arithmetic is exact rational
arithmetic; NaN and infinity propagation follows IEEE-754 semantics as
implemented by NumPy (`0/0 = NaN`, `x/0 = ±inf` for `x ≠ 0`, every comparison
against NaN is false, `pandas.concat(...).max(axis=1)` skips NaN, cumulative
sums skip NaN).  Wall-clock reads (`datetime.now()`, `is_euronext_open()`)
are passed as explicit parameters.
-/

set_option maxRecDepth 100000

namespace FinanceMonitor

/-- Model of a 64-bit float value as used by the pipeline: an exact rational,
a signed infinity (`inf true` is plus infinity) or NaN. -/
inductive FVal where
  | fin : ℚ → FVal
  | inf : Bool → FVal
  | nan : FVal
deriving DecidableEq, Repr

/-- NaN test. -/
def FVal.isNaN : FVal → Bool
  | .nan => true
  | _ => false

/-- IEEE negation. -/
def FVal.neg : FVal → FVal
  | .fin q => .fin (-q)
  | .inf b => .inf (!b)
  | .nan => .nan

/-- IEEE addition (exact on finite values). -/
def FVal.add : FVal → FVal → FVal
  | .nan, _ => .nan
  | _, .nan => .nan
  | .fin a, .fin b => .fin (a + b)
  | .fin _, .inf b => .inf b
  | .inf b, .fin _ => .inf b
  | .inf a, .inf b => if a = b then .inf a else .nan

/-- IEEE subtraction. -/
def FVal.sub (x y : FVal) : FVal := x.add y.neg

/-- IEEE multiplication (exact on finite values). -/
def FVal.mul : FVal → FVal → FVal
  | .nan, _ => .nan
  | _, .nan => .nan
  | .fin a, .fin b => .fin (a * b)
  | .fin a, .inf b => if a = 0 then .nan else if 0 < a then .inf b else .inf (!b)
  | .inf b, .fin a => if a = 0 then .nan else if 0 < a then .inf b else .inf (!b)
  | .inf a, .inf b => .inf (a == b)

/-- IEEE division (exact on finite values): `0/0` is NaN, `x/0` is a signed
infinity for finite `x ≠ 0`, finite over infinite is zero. -/
def FVal.div : FVal → FVal → FVal
  | .nan, _ => .nan
  | _, .nan => .nan
  | .fin a, .fin b =>
      if b = 0 then (if a = 0 then .nan else if 0 < a then .inf true else .inf false)
      else .fin (a / b)
  | .inf b, .fin a => if 0 ≤ a then .inf b else .inf (!b)
  | .fin _, .inf _ => .fin 0
  | .inf _, .inf _ => .nan

/-- IEEE strict comparison: false whenever either side is NaN. -/
def FVal.lt : FVal → FVal → Bool
  | .nan, _ => false
  | _, .nan => false
  | .fin a, .fin b => decide (a < b)
  | .fin _, .inf b => b
  | .inf b, .fin _ => !b
  | .inf a, .inf b => !a && b

/-- IEEE non-strict comparison: false whenever either side is NaN. -/
def FVal.le : FVal → FVal → Bool
  | .nan, _ => false
  | _, .nan => false
  | .fin a, .fin b => decide (a ≤ b)
  | .fin _, .inf b => b
  | .inf b, .fin _ => !b
  | .inf a, .inf b => !a || b

/-- Absolute value. -/
def FVal.abs : FVal → FVal
  | .fin q => .fin |q|
  | .inf _ => .inf true
  | .nan => .nan

/-- NaN-skipping binary maximum, as used by
`pd.concat([...], axis=1).max(axis=1)` (skipna=True). -/
def FVal.maxSkip : FVal → FVal → FVal
  | .nan, y => y
  | x, .nan => x
  | x, y => if x.lt y then y else x

/-- numpy.sign. -/
def FVal.fsign : FVal → FVal
  | .nan => .nan
  | .inf b => if b then .fin 1 else .fin (-1)
  | .fin q => if q < 0 then .fin (-1) else if q = 0 then .fin 0 else .fin 1

/-- Rational square root; exact on perfect squares.  The claims analysed here
use the standard deviation only on windows of constant price, where the exact
value is 0 and this function agrees with the real square root. -/
def ratSqrt (q : ℚ) : ℚ := (Nat.sqrt q.num.toNat : ℚ) / (Nat.sqrt q.den : ℚ)

/-- Square root on the float model. -/
def FVal.fsqrt : FVal → FVal
  | .fin q => if q < 0 then .nan else .fin (ratSqrt q)
  | .inf b => if b then .inf true else .nan
  | .nan => .nan

/-- Element of a series at position `i` (NaN out of range; only used at
positions the source code accesses on non-empty series). -/
def nthF (xs : List FVal) (i : ℕ) : FVal := xs.getD i FVal.nan

/-- Model of `series.iloc[-1]` for a non-empty series. -/
def ilocLast (xs : List FVal) : FVal := nthF xs (xs.length - 1)

/-- A raw price series entering the pipeline (after resampling) is a list of
exact positive rationals; numeric series derived from it live in `FVal`. -/
def seriesOf (prices : List ℚ) : List FVal := prices.map FVal.fin

/-- Model of `series.diff()`: NaN first, then consecutive differences. -/
def sdiff : List FVal → List FVal
  | [] => []
  | x :: rest => FVal.nan :: List.zipWith FVal.sub rest (x :: rest)

/-- The length-`n` window of a rolling computation ending at index `i`. -/
def window (n : ℕ) (xs : List FVal) (i : ℕ) : List FVal := (xs.take (i + 1)).drop (i + 1 - n)

/-- Model of `series.rolling(window=n).f()`: NaN until a full window of `n`
observations is available, then `f` of the trailing window. -/
def rollApply (f : List FVal → FVal) (n : ℕ) (xs : List FVal) : List FVal :=
  (List.range xs.length).map (fun i => if i + 1 < n then FVal.nan else f (window n xs i))

/-- Sum of a window. -/
def fsum (ws : List FVal) : FVal := ws.foldr FVal.add (FVal.fin 0)

/-- Window mean; NaN when the window contains a NaN (pandas requires
`min_periods = n` non-null observations). -/
def wmean (n : ℕ) (ws : List FVal) : FVal :=
  if ws.any FVal.isNaN then FVal.nan else (fsum ws).div (FVal.fin n)

/-- Window minimum (NaN when the window contains a NaN). -/
def wmin (ws : List FVal) : FVal :=
  if ws.any FVal.isNaN then FVal.nan else
  match ws with
  | [] => FVal.nan
  | x :: r => r.foldl (fun a b => if b.lt a then b else a) x

/-- Window maximum (NaN when the window contains a NaN). -/
def wmax (ws : List FVal) : FVal :=
  if ws.any FVal.isNaN then FVal.nan else
  match ws with
  | [] => FVal.nan
  | x :: r => r.foldl (fun a b => if a.lt b then b else a) x

/-- Window sample standard deviation (pandas default `ddof = 1`). -/
def wstd (n : ℕ) (ws : List FVal) : FVal :=
  if ws.any FVal.isNaN then FVal.nan else
  ((fsum (ws.map (fun x =>
      (x.sub ((fsum ws).div (FVal.fin n))).mul (x.sub ((fsum ws).div (FVal.fin n)))))).div
    (FVal.fin (n - 1))).fsqrt

/-- Model of `series.cumsum()` with pandas skipna semantics: NaN entries stay
NaN and are skipped by the running sum. -/
def cumsumSkip : FVal → List FVal → List FVal
  | _, [] => []
  | acc, x :: r =>
      if x.isNaN then FVal.nan :: cumsumSkip acc r
      else (acc.add x) :: cumsumSkip (acc.add x) r

/-- Model of `series.shift(1)`: NaN first, previous values after. -/
def shift1 (xs : List FVal) : List FVal := (FVal.nan :: xs).take xs.length

/-- TechnicalIndicators.calculate_sma: `prices.rolling(window=period).mean()`. -/
def calculate_sma (prices : List FVal) (period : ℕ) : List FVal :=
  rollApply (wmean period) period prices

/-- Recursive smoothing step of `ewm(span, adjust=False).mean()`. -/
def ewmAux (a : ℚ) : FVal → List FVal → List FVal
  | _, [] => []
  | prev, x :: r =>
      (x.mul (FVal.fin a)).add (prev.mul (FVal.fin (1 - a))) ::
        ewmAux a ((x.mul (FVal.fin a)).add (prev.mul (FVal.fin (1 - a)))) r

/-- TechnicalIndicators.calculate_ema:
`prices.ewm(span=period, adjust=False).mean()`, smoothing `α = 2/(period+1)`. -/
def calculate_ema (prices : List FVal) (period : ℕ) : List FVal :=
  match prices with
  | [] => []
  | x :: r => x :: ewmAux (2 / (period + 1 : ℚ)) x r

/-- TechnicalIndicators.calculate_rsi: empty series below `period + 1`
samples, otherwise `100 - 100/(1 + RS)` with `RS` the ratio of the rolling
mean gain to the rolling mean loss. -/
def calculate_rsi (prices : List ℚ) (period : ℕ) : List FVal :=
  if prices.length < period + 1 then []
  else
    let delta := sdiff (seriesOf prices)
    let gains := delta.map (fun v => if (FVal.fin 0).lt v then v else FVal.fin 0)
    let losses := delta.map (fun v => (if v.lt (FVal.fin 0) then v else FVal.fin 0).neg)
    let avg_gains := rollApply (wmean period) period gains
    let avg_losses := rollApply (wmean period) period losses
    (List.zipWith FVal.div avg_gains avg_losses).map
      (fun rs => (FVal.fin 100).sub ((FVal.fin 100).div ((FVal.fin 1).add rs)))

/-- TechnicalIndicators.calculate_bollinger_bands: (upper, middle, lower). -/
def calculate_bollinger_bands (prices : List FVal) (period : ℕ) (std_dev : ℚ) :
    List FVal × List FVal × List FVal :=
  let middle := calculate_sma prices period
  let rstd := rollApply (wstd period) period prices
  (List.zipWith FVal.add middle (rstd.map (fun s => (FVal.fin std_dev).mul s)),
   middle,
   List.zipWith FVal.sub middle (rstd.map (fun s => (FVal.fin std_dev).mul s)))

/-- TechnicalIndicators.calculate_macd: (macd line, signal line, histogram). -/
def calculate_macd (prices : List FVal) (fast_period slow_period signal_period : ℕ) :
    List FVal × List FVal × List FVal :=
  let macd_line := List.zipWith FVal.sub (calculate_ema prices fast_period)
    (calculate_ema prices slow_period)
  let signal_line := calculate_ema macd_line signal_period
  (macd_line, signal_line, List.zipWith FVal.sub macd_line signal_line)

/-- TechnicalIndicators.calculate_stochastic: (%K, %D). -/
def calculate_stochastic (high low close : List FVal) (k_period d_period : ℕ) :
    List FVal × List FVal :=
  let lowest_low := rollApply wmin k_period low
  let highest_high := rollApply wmax k_period high
  let k := List.zipWith (fun a b => (FVal.fin 100).mul (FVal.div a b))
    (List.zipWith FVal.sub close lowest_low)
    (List.zipWith FVal.sub highest_high lowest_low)
  (k, rollApply (wmean d_period) d_period k)

/-- TechnicalIndicators.calculate_atr: rolling mean of the true range, where
the row-wise maximum of the three range candidates skips NaN. -/
def calculate_atr (high low close : List FVal) (period : ℕ) : List FVal :=
  let high_low := List.zipWith FVal.sub high low
  let high_close := (List.zipWith FVal.sub high (shift1 close)).map FVal.abs
  let low_close := (List.zipWith FVal.sub low (shift1 close)).map FVal.abs
  rollApply (wmean period) period
    (List.zipWith FVal.maxSkip (List.zipWith FVal.maxSkip high_low high_close) low_close)

/-- TechnicalIndicators.calculate_obv: cumulative sum of signed volume. -/
def calculate_obv (prices volumes : List FVal) : List FVal :=
  cumsumSkip (FVal.fin 0) (List.zipWith FVal.mul volumes ((sdiff prices).map FVal.fsign))

/-- Minimum of a list of rationals (pandas `.min()` on a non-empty series). -/
def qmin : List ℚ → ℚ
  | [] => 0
  | x :: r => r.foldl min x

/-- Maximum of a list of rationals (pandas `.max()` on a non-empty series). -/
def qmax : List ℚ → ℚ
  | [] => 0
  | x :: r => r.foldl max x

/-- Model of `prices.tail(k)`. -/
def tailSlice (k : ℕ) (prices : List ℚ) : List ℚ := prices.drop (prices.length - k)

/-- The dictionary produced by TechnicalIndicators.calculate_all_indicators,
as a record of optional fields: `none` means the key is absent.  The value
stored under `sma_50` is itself optional because the source stores Python
`None` there below 50 samples while keeping the key present.  `obv_trend`
stores `true` for the string `up` and `false` for `down`; the four
`*_oversold`/`*_overbought` flags and `macd_bullish` store Python booleans. -/
structure IndicatorDict where
  sma_10 : Option FVal := none
  sma_20 : Option FVal := none
  sma_50 : Option (Option FVal) := none
  ema_10 : Option FVal := none
  ema_20 : Option FVal := none
  rsi : Option FVal := none
  rsi_oversold : Option Bool := none
  rsi_overbought : Option Bool := none
  bb_upper : Option FVal := none
  bb_middle : Option FVal := none
  bb_lower : Option FVal := none
  bb_position : Option FVal := none
  macd : Option FVal := none
  macd_signal : Option FVal := none
  macd_histogram : Option FVal := none
  macd_bullish : Option Bool := none
  stoch_k : Option FVal := none
  stoch_d : Option FVal := none
  stoch_oversold : Option Bool := none
  stoch_overbought : Option Bool := none
  atr : Option FVal := none
  atr_pct : Option FVal := none
  obv : Option FVal := none
  obv_trend : Option Bool := none
  price_current : Option FVal := none
  price_change_24h : Option FVal := none
  price_change_7d : Option FVal := none
  support : Option FVal := none
  resistance : Option FVal := none
deriving DecidableEq, Repr

/-- TechnicalIndicators.calculate_all_indicators on an already-resampled
price series (the `symbol`/`days` arguments only select the series from the
database and are irrelevant here).  High, low and volume are the synthetic
proxies of the source (`price*1.01`, `price*0.99`, constant 100000).  The
single statement of the `try` block that can raise is the OBV trend access
`obv_values.iloc[-5]`, which raises IndexError on series shorter than 5; the
enclosing handler then returns the dictionary accumulated so far, so every
assignment after that point is skipped. -/
def calculate_all_indicators (prices : List ℚ) : IndicatorDict :=
  if prices.isEmpty then {} else
  let n := prices.length
  let ps := seriesOf prices
  let high := prices.map (fun p => FVal.fin (p * (101 / 100)))
  let low := prices.map (fun p => FVal.fin (p * (99 / 100)))
  let volumes : List FVal := prices.map (fun _ => FVal.fin 100000)
  let rsi_values := calculate_rsi prices 14
  let bb := calculate_bollinger_bands ps 20 2
  let macd3 := calculate_macd ps 12 26 9
  let stoch := calculate_stochastic high low ps 14 3
  let atr_values := calculate_atr high low ps 14
  let obv_values := calculate_obv ps volumes
  let current_price := ilocLast ps
  let d1 : IndicatorDict :=
    { sma_10 := some (ilocLast (calculate_sma ps 10))
      sma_20 := some (ilocLast (calculate_sma ps 20))
      sma_50 := some (if 50 ≤ n then some (ilocLast (calculate_sma ps 50)) else none)
      ema_10 := some (ilocLast (calculate_ema ps 10))
      ema_20 := some (ilocLast (calculate_ema ps 20)) }
  let d2 := if rsi_values.isEmpty then d1 else
    { d1 with
      rsi := some (ilocLast rsi_values)
      rsi_oversold := some ((ilocLast rsi_values).lt (FVal.fin 30))
      rsi_overbought := some ((FVal.fin 70).lt (ilocLast rsi_values)) }
  let d3 := if bb.1.isEmpty then d2 else
    { d2 with
      bb_upper := some (ilocLast bb.1)
      bb_middle := some (ilocLast bb.2.1)
      bb_lower := some (ilocLast bb.2.2)
      bb_position := some ((current_price.sub (ilocLast bb.2.2)).div
        ((ilocLast bb.1).sub (ilocLast bb.2.2))) }
  let d4 := if macd3.1.isEmpty then d3 else
    { d3 with
      macd := some (ilocLast macd3.1)
      macd_signal := some (ilocLast macd3.2.1)
      macd_histogram := some (ilocLast macd3.2.2)
      macd_bullish := some ((ilocLast macd3.2.1).lt (ilocLast macd3.1)) }
  let d5 := if stoch.1.isEmpty then d4 else
    { d4 with
      stoch_k := some (ilocLast stoch.1)
      stoch_d := some (ilocLast stoch.2)
      stoch_oversold := some ((ilocLast stoch.1).lt (FVal.fin 20))
      stoch_overbought := some ((FVal.fin 80).lt (ilocLast stoch.1)) }
  let d6 := if atr_values.isEmpty then d5 else
    { d5 with
      atr := some (ilocLast atr_values)
      atr_pct := some (((ilocLast atr_values).div current_price).mul (FVal.fin 100)) }
  let d7 := if obv_values.isEmpty then d6 else
    { d6 with obv := some (ilocLast obv_values) }
  if n < 5 then d7 else
  let d8 := if obv_values.isEmpty then d7 else
    { d7 with obv_trend := some ((nthF obv_values (n - 5)).lt (ilocLast obv_values)) }
  { d8 with
    price_current := some current_price
    price_change_24h := some (if 24 < n then
      ((current_price.sub (nthF ps (n - 24))).div (nthF ps (n - 24))).mul (FVal.fin 100)
      else FVal.fin 0)
    price_change_7d := some (if 168 < n then
      ((current_price.sub (nthF ps (n - 168))).div (nthF ps (n - 168))).mul (FVal.fin 100)
      else FVal.fin 0)
    support := some (FVal.fin (qmin (tailSlice 20 prices)))
    resistance := some (FVal.fin (qmax (tailSlice 20 prices))) }

/-- The directional vote strings buy / sell / neutral. -/
inductive Vote where
  | buy | sell | neutral
deriving DecidableEq, Repr

/-- The signals dictionary of TechnicalIndicators.get_indicator_signals;
`none` means the key is absent, `consensus` is always assigned. -/
structure SignalsDict where
  rsi : Option Vote := none
  macd : Option Vote := none
  bollinger : Option Vote := none
  stochastic : Option Vote := none
  trend : Option Vote := none
  consensus : Vote := Vote.neutral
deriving DecidableEq, Repr

/-- The values of the per-indicator entries of the signals dictionary, in
insertion order (consensus excluded). -/
def votesList (s : SignalsDict) : List Vote :=
  [s.rsi, s.macd, s.bollinger, s.stochastic, s.trend].filterMap id

/-- The consensus vote of get_indicator_signals: a side wins only with at
least two votes and strictly more than the other side. -/
def consensusOf (votes : List Vote) : Vote :=
  let buy_signals := votes.count Vote.buy
  let sell_signals := votes.count Vote.sell
  if sell_signals < buy_signals ∧ 2 ≤ buy_signals then Vote.buy
  else if buy_signals < sell_signals ∧ 2 ≤ sell_signals then Vote.sell
  else Vote.neutral

/-- Python truthiness of an optional float: `None`, absent and `0.0` are
falsy; every other float (including NaN and the infinities) is truthy. -/
def pyTruthy : Option FVal → Bool
  | none => false
  | some (FVal.fin q) => q != 0
  | some _ => true

/-- TechnicalIndicators.get_indicator_signals. -/
def get_indicator_signals (ind : IndicatorDict) : SignalsDict :=
  let s1 : SignalsDict := if ind.rsi.isSome then
      { rsi := some (if ind.rsi_oversold.getD false then Vote.buy
          else if ind.rsi_overbought.getD false then Vote.sell else Vote.neutral) }
    else {}
  let s2 := match ind.macd_bullish with
    | some b => { s1 with macd := some (if b then Vote.buy else Vote.sell) }
    | none => s1
  let s3 := match ind.bb_position with
    | some p => { s2 with bollinger := some (if p.lt (FVal.fin (1/5)) then Vote.buy
        else if (FVal.fin (4/5)).lt p then Vote.sell else Vote.neutral) }
    | none => s2
  let s4 := if ind.stoch_k.isSome then
      { s3 with stochastic := some (if ind.stoch_oversold.getD false then Vote.buy
          else if ind.stoch_overbought.getD false then Vote.sell else Vote.neutral) }
    else s3
  let s5 := if ind.price_current.isSome && ind.sma_20.isSome && ind.sma_50.isSome then
      (if pyTruthy (ind.sma_50.getD none) then
        { s4 with trend := some (if (ind.sma_20.getD FVal.nan).lt (ind.price_current.getD FVal.nan) &&
                ((ind.sma_50.getD none).getD FVal.nan).lt (ind.sma_20.getD FVal.nan)
             then Vote.buy
             else if (ind.price_current.getD FVal.nan).lt (ind.sma_20.getD FVal.nan) &&
                (ind.sma_20.getD FVal.nan).lt ((ind.sma_50.getD none).getD FVal.nan)
             then Vote.sell else Vote.neutral) }
       else s4)
    else s4
  { s5 with consensus := consensusOf (votesList s5) }

/-- The Signal enum of analysis/strategy.py. -/
inductive Sig where
  | strong_buy | buy | neutral | sell | strong_sell
deriving DecidableEq, Repr

/-- The factor explanation entries appended by the four timeframe analysers,
one constructor per source string (the French presentation text, with the
numeric value the source interpolates into it carried as an argument). -/
inductive Factor where
  | rsiOversold (v : FVal)
  | rsiOverbought (v : FVal)
  | stochOversold (v : FVal)
  | stochOverbought (v : FVal)
  | bbLowerBand
  | bbUpperBand
  | highVolatility (v : FVal)
  | macdBullish
  | macdBearish
  | rsiNeutralBand (v : FVal)
  | rsiLowBand (v : FVal)
  | rsiHighBand (v : FVal)
  | smaBullCross
  | smaBearCross
  | momentum24hPos (v : FVal)
  | momentum24hNeg (v : FVal)
  | trendUpConfirmed
  | trendDownConfirmed
  | priceAboveSmas
  | priceBelowSmas
  | nearSupport
  | nearResistance
  | perf7dStrong (v : FVal)
  | perf7dWeak (v : FVal)
  | obvUp
  | obvDown
  | priceAboveSma50
  | priceBelowSma50
  | perfSustainedPos
  | perfSustainedNeg
  | lowVolLongTerm
  | highVolLongTerm
  | rsiBalanced
  | rsiExtreme
deriving DecidableEq, Repr

/-- The per-timeframe analysis record returned by the four analysers.  The
constant presentation fields of the source dictionaries (`timeframe`,
`risk_level` and the `recommendation` text, all fixed functions of the
timeframe and the signal) are elided. -/
structure TFResult where
  signal : Sig
  score : ℚ
  factors : List Factor
deriving DecidableEq, Repr

/-- The score-to-signal ladder shared by the four analysers: thresholds are
checked in the order strong_buy, buy, strong_sell, sell. -/
def signalFromScore (score sbT bT ssT sT : ℚ) : Sig :=
  if sbT ≤ score then Sig.strong_buy
  else if bT ≤ score then Sig.buy
  else if score ≤ ssT then Sig.strong_sell
  else if score ≤ sT then Sig.sell
  else Sig.neutral

/-- TradingStrategy._analyze_intraday. -/
def analyze_intraday (ind : IndicatorDict) (_sd : SignalsDict) : TFResult :=
  let stRsi : ℚ × List Factor := match ind.rsi with
    | some r =>
        if r.lt (FVal.fin 30) then (2, [Factor.rsiOversold r])
        else if (FVal.fin 70).lt r then (-2, [Factor.rsiOverbought r])
        else (0, [])
    | none => (0, [])
  let stStoch : ℚ × List Factor := match ind.stoch_k with
    | some k =>
        if k.lt (FVal.fin 20) then (2, [Factor.stochOversold k])
        else if (FVal.fin 80).lt k then (-2, [Factor.stochOverbought k])
        else (0, [])
    | none => (0, [])
  let stBB : ℚ × List Factor := match ind.bb_position with
    | some p =>
        if p.lt (FVal.fin (1/10)) then (2, [Factor.bbLowerBand])
        else if (FVal.fin (9/10)).lt p then (-2, [Factor.bbUpperBand])
        else (0, [])
    | none => (0, [])
  let stVol : List Factor := match ind.atr_pct with
    | some a => if (FVal.fin 3).lt a then [Factor.highVolatility a] else []
    | none => []
  let score := stRsi.1 + stStoch.1 + stBB.1
  { signal := signalFromScore score 4 2 (-4) (-2)
    score := score
    factors := stRsi.2 ++ stStoch.2 ++ stBB.2 ++ stVol }

/-- TradingStrategy._analyze_short_term. -/
def analyze_short_term (ind : IndicatorDict) (_sd : SignalsDict) : TFResult :=
  let stMacd : ℚ × List Factor := match ind.macd_bullish with
    | some true => (3, [Factor.macdBullish])
    | some false => (-3, [Factor.macdBearish])
    | none => (0, [])
  let stRsi : ℚ × List Factor := match ind.rsi with
    | some r =>
        if (FVal.fin 35).le r && r.le (FVal.fin 65) then (0, [Factor.rsiNeutralBand r])
        else if r.lt (FVal.fin 35) then (1, [Factor.rsiLowBand r])
        else if (FVal.fin 65).lt r then (-1, [Factor.rsiHighBand r])
        else (0, [])
    | none => (0, [])
  let stSma : ℚ × List Factor :=
    if ind.price_current.isSome && ind.sma_10.isSome && ind.sma_20.isSome then
      (if (ind.sma_20.getD FVal.nan).lt (ind.sma_10.getD FVal.nan)
       then (2, [Factor.smaBullCross])
       else (-2, [Factor.smaBearCross]))
    else (0, [])
  let stMom : ℚ × List Factor := match ind.price_change_24h with
    | some c =>
        if (FVal.fin 5).lt c.abs then
          (if (FVal.fin 0).lt c then (1, [Factor.momentum24hPos c])
           else (-1, [Factor.momentum24hNeg c]))
        else (0, [])
    | none => (0, [])
  let score := stMacd.1 + stRsi.1 + stSma.1 + stMom.1
  { signal := signalFromScore score 5 2 (-5) (-2)
    score := score
    factors := stMacd.2 ++ stRsi.2 ++ stSma.2 ++ stMom.2 }

/-- TradingStrategy._analyze_medium_term. -/
def analyze_medium_term (ind : IndicatorDict) (sd : SignalsDict) : TFResult :=
  let stTrend : ℚ × List Factor := match sd.trend with
    | some Vote.buy => (3, [Factor.trendUpConfirmed])
    | some Vote.sell => (-3, [Factor.trendDownConfirmed])
    | _ => (0, [])
  let stSma : ℚ × List Factor :=
    if ind.price_current.isSome && ind.sma_20.isSome && ind.sma_50.isSome then
      let p := ind.price_current.getD FVal.nan
      let m20 := ind.sma_20.getD FVal.nan
      let m50 := if pyTruthy (ind.sma_50.getD none)
        then (ind.sma_50.getD none).getD FVal.nan else m20
      if m20.lt p && m50.lt m20 then (2, [Factor.priceAboveSmas])
      else if p.lt m20 && m20.lt m50 then (-2, [Factor.priceBelowSmas])
      else (0, [])
    else (0, [])
  let stSR : ℚ × List Factor :=
    if ind.price_current.isSome && ind.support.isSome && ind.resistance.isSome then
      let p := ind.price_current.getD FVal.nan
      let position := if (ind.support.getD FVal.nan).lt (ind.resistance.getD FVal.nan)
        then (p.sub (ind.support.getD FVal.nan)).div
          ((ind.resistance.getD FVal.nan).sub (ind.support.getD FVal.nan))
        else FVal.fin (1/2)
      if position.lt (FVal.fin (3/10)) then (2, [Factor.nearSupport])
      else if (FVal.fin (7/10)).lt position then (-1, [Factor.nearResistance])
      else (0, [])
    else (0, [])
  let stPerf : ℚ × List Factor := match ind.price_change_7d with
    | some c =>
        if (FVal.fin 10).lt c then (1, [Factor.perf7dStrong c])
        else if c.lt (FVal.fin (-10)) then (-1, [Factor.perf7dWeak c])
        else (0, [])
    | none => (0, [])
  let stObv : ℚ × List Factor := match ind.obv_trend with
    | some true => (1, [Factor.obvUp])
    | some false => (-1, [Factor.obvDown])
    | none => (0, [])
  let score := stTrend.1 + stSma.1 + stSR.1 + stPerf.1 + stObv.1
  { signal := signalFromScore score 6 3 (-6) (-3)
    score := score
    factors := stTrend.2 ++ stSma.2 ++ stSR.2 ++ stPerf.2 ++ stObv.2 }

/-- TradingStrategy._analyze_long_term. -/
def analyze_long_term (ind : IndicatorDict) (_sd : SignalsDict) : TFResult :=
  let stSma : ℚ × List Factor :=
    if ind.sma_50.isSome && pyTruthy (ind.sma_50.getD none) then
      (if ((ind.sma_50.getD none).getD FVal.nan).lt (ind.price_current.getD FVal.nan)
       then (3, [Factor.priceAboveSma50])
       else (-3, [Factor.priceBelowSma50]))
    else (0, [])
  let stPerf : ℚ × List Factor :=
    if ind.price_change_7d.isSome && ind.price_change_24h.isSome then
      let perf := ((ind.price_change_7d.getD FVal.nan).mul (FVal.fin (7/10))).add
        ((ind.price_change_24h.getD FVal.nan).mul (FVal.fin (3/10)))
      if (FVal.fin 5).lt perf then (2, [Factor.perfSustainedPos])
      else if perf.lt (FVal.fin (-5)) then (-2, [Factor.perfSustainedNeg])
      else (0, [])
    else (0, [])
  let stVol : ℚ × List Factor := match ind.atr_pct with
    | some a =>
        if a.lt (FVal.fin 2) then (0, [Factor.lowVolLongTerm])
        else if (FVal.fin 5).lt a then (-1, [Factor.highVolLongTerm])
        else (0, [])
    | none => (0, [])
  let stRsi : ℚ × List Factor := match ind.rsi with
    | some r =>
        if (FVal.fin 40).le r && r.le (FVal.fin 60) then (1, [Factor.rsiBalanced])
        else if r.lt (FVal.fin 30) || (FVal.fin 70).lt r then (0, [Factor.rsiExtreme])
        else (0, [])
    | none => (0, [])
  let score := stSma.1 + stPerf.1 + stVol.1 + stRsi.1
  { signal := signalFromScore score 4 2 (-4) (-2)
    score := score
    factors := stSma.2 ++ stPerf.2 ++ stVol.2 ++ stRsi.2 }

/-- The confidence labels Faible / Moyenne / Elevee / Tres elevee. -/
inductive Conf where
  | low | medium | high | veryHigh
deriving DecidableEq, Repr

/-- Membership in the buy family of signals. -/
def isBuyFam (s : Sig) : Bool := s == Sig.buy || s == Sig.strong_buy

/-- Membership in the sell family of signals. -/
def isSellFam (s : Sig) : Bool := s == Sig.sell || s == Sig.strong_sell

/-- TradingStrategy._calculate_confidence on the list of present per-timeframe
signals.  Note 0.75 and 0.5 are exactly representable doubles and the counts
are small integers, so the comparisons below are exactly those of the source. -/
def confidenceOf (signals : List Sig) : Conf :=
  if signals.isEmpty then Conf.low else
  let n := signals.length
  let buy_signals := signals.countP isBuyFam
  let sell_signals := signals.countP isSellFam
  if buy_signals = n ∨ sell_signals = n then Conf.veryHigh
  else if (n : ℚ) * (3/4) ≤ buy_signals ∨ (n : ℚ) * (3/4) ≤ sell_signals then Conf.high
  else if (n : ℚ) * (1/2) ≤ buy_signals ∨ (n : ℚ) * (1/2) ≤ sell_signals then Conf.medium
  else Conf.low

/-- The recommendations dictionary keyed by TimeFrame; `none` means the
timeframe entry is absent (only the intraday entry can be). -/
structure Recs where
  intraday : Option TFResult := none
  short_term : Option TFResult := none
  medium_term : Option TFResult := none
  long_term : Option TFResult := none
deriving DecidableEq, Repr

/-- The signals of the present per-timeframe analyses, in the insertion order
of the recommendations dictionary. -/
def recsSignals (r : Recs) : List Sig :=
  ([r.intraday, r.short_term, r.medium_term, r.long_term].filterMap id).map TFResult.signal

/-- TradingStrategy._calculate_confidence. -/
def calculate_confidence (r : Recs) : Conf := confidenceOf (recsSignals r)

/-- The overall_score record of TradingStrategy._calculate_overall_score. -/
structure OverallScore where
  score : ℚ
  signal : Sig
  confidence : Conf
deriving DecidableEq, Repr

/-- The fixed aggregation weights paired with the recommendation entries, in
dictionary iteration order: intraday 0.1, short 0.25, medium 0.35, long 0.3. -/
def weightedParts (r : Recs) : List (ℚ × Option TFResult) :=
  [(1/10, r.intraday), (1/4, r.short_term), (7/20, r.medium_term), (3/10, r.long_term)]

/-- TradingStrategy._calculate_overall_score. -/
def calculate_overall_score (r : Recs) : OverallScore :=
  let acc := (weightedParts r).foldl (fun st wa => match wa.2 with
    | some a => (st.1 + a.score * wa.1, st.2 + wa.1)
    | none => st) ((0 : ℚ), (0 : ℚ))
  let final_score := if 0 < acc.2 then acc.1 / acc.2 else 0
  { score := final_score
    signal :=
      if 3 ≤ final_score then Sig.strong_buy
      else if 1 ≤ final_score then Sig.buy
      else if final_score ≤ -3 then Sig.strong_sell
      else if final_score ≤ -1 then Sig.sell
      else Sig.neutral
    confidence := calculate_confidence r }

/-- The analysis dictionary returned by TradingStrategy.analyze_asset; `none`
fields are keys the error branch leaves absent. -/
structure AssetAnalysis where
  symbol : String
  error : Option String := none
  asset_type : Option String := none
  timestamp : Option ℕ := none
  indicators : Option IndicatorDict := none
  signals : Option SignalsDict := none
  recommendations : Recs := {}
  overall : Option OverallScore := none
deriving DecidableEq, Repr

/-- TradingStrategy.analyze_asset on an already-resampled price series.  The
two hidden inputs the source reads from the environment are passed explicitly:
`now` is the `datetime.now()` reading stored in the `timestamp` key, and
`marketOpen` is the result of `_is_market_hours()` (i.e. of
`core.utils.is_euronext_open()`), which gates the intraday entry for
non-crypto assets. -/
def analyze_asset (prices : List ℚ) (symbol asset_type : String) (now : ℕ)
    (marketOpen : Bool) : AssetAnalysis :=
  let indicators := calculate_all_indicators prices
  if indicators = ({} : IndicatorDict) then
    { symbol := symbol, error := some "Donnees insuffisantes" }
  else
    let signals := get_indicator_signals indicators
    let recs : Recs :=
      { intraday := if asset_type = "crypto" || marketOpen
          then some (analyze_intraday indicators signals) else none
        short_term := some (analyze_short_term indicators signals)
        medium_term := some (analyze_medium_term indicators signals)
        long_term := some (analyze_long_term indicators signals) }
    { symbol := symbol
      asset_type := some asset_type
      timestamp := some now
      indicators := some indicators
      signals := some signals
      recommendations := recs
      overall := some (calculate_overall_score recs) }

/-- Element of a raw price series at position `i`. -/
def qnth (prices : List ℚ) (i : ℕ) : ℚ := prices.getD i 0

/-! Basic length and indexing lemmas for the series combinators. -/

theorem length_seriesOf (prices : List ℚ) : (seriesOf prices).length = prices.length := by
  simp [seriesOf]

theorem length_rollApply (f : List FVal → FVal) (n : ℕ) (xs : List FVal) :
    (rollApply f n xs).length = xs.length := by
  simp [rollApply]

theorem length_sdiff (xs : List FVal) : (sdiff xs).length = xs.length := by
  cases xs with
  | nil => rfl
  | cons x rest => simp [sdiff]

theorem nthF_map (f : FVal → FVal) (l : List FVal) (i : ℕ) (h : i < l.length) :
    nthF (l.map f) i = f (nthF l i) := by
  simp [nthF, List.getD_eq_getElem?_getD, List.getElem?_map, List.getElem?_eq_getElem h]

theorem nthF_zipWith (f : FVal → FVal → FVal) (l₁ l₂ : List FVal) (i : ℕ)
    (h₁ : i < l₁.length) (h₂ : i < l₂.length) :
    nthF (List.zipWith f l₁ l₂) i = f (nthF l₁ i) (nthF l₂ i) := by
  simp [nthF, List.getD_eq_getElem?_getD, List.getElem?_zipWith,
    List.getElem?_eq_getElem h₁, List.getElem?_eq_getElem h₂]

theorem nthF_seriesOf (prices : List ℚ) (i : ℕ) (h : i < prices.length) :
    nthF (seriesOf prices) i = FVal.fin (qnth prices i) := by
  simp [nthF, qnth, seriesOf, List.getD_eq_getElem?_getD, List.getElem?_map,
    List.getElem?_eq_getElem h]

theorem nthF_rollApply (f : List FVal → FVal) (n : ℕ) (xs : List FVal) (i : ℕ)
    (h : i < xs.length) :
    nthF (rollApply f n xs) i = if i + 1 < n then FVal.nan else f (window n xs i) := by
  have hr : i < (List.range xs.length).length := by simpa using h
  simp [rollApply, nthF, List.getD_eq_getElem?_getD, List.getElem?_map,
    List.getElem?_eq_getElem hr]

theorem nthF_sdiff (xs : List FVal) (j : ℕ) (hj : 0 < j) (h : j < xs.length) :
    nthF (sdiff xs) j = (nthF xs j).sub (nthF xs (j - 1)) := by
  cases xs with
  | nil => simp at h
  | cons x rest =>
    obtain ⟨k, rfl⟩ : ∃ k, j = k + 1 := ⟨j - 1, (Nat.succ_pred_eq_of_pos hj).symm⟩
    have hk : k < rest.length := by simpa using h
    have hk2 : k < (x :: rest).length := by simp; omega
    simp only [sdiff, nthF, List.getD_cons_succ, Nat.add_sub_cancel]
    have := nthF_zipWith FVal.sub rest (x :: rest) k hk hk2
    simpa [nthF] using this

theorem ilocLast_eq_nthF (xs : List FVal) : ilocLast xs = nthF xs (xs.length - 1) := rfl

theorem length_ewmAux (a : ℚ) (prev : FVal) (l : List FVal) :
    (ewmAux a prev l).length = l.length := by
  induction l generalizing prev with
  | nil => rfl
  | cons x r ih => simp [ewmAux, ih]

theorem length_calculate_ema (l : List FVal) (p : ℕ) :
    (calculate_ema l p).length = l.length := by
  cases l with
  | nil => rfl
  | cons x r => simp [calculate_ema, length_ewmAux]

theorem length_cumsumSkip (acc : FVal) (l : List FVal) :
    (cumsumSkip acc l).length = l.length := by
  induction l generalizing acc with
  | nil => rfl
  | cons x r ih => by_cases hx : x.isNaN <;> simp [cumsumSkip, hx, ih]

theorem length_shift1 (l : List FVal) : (shift1 l).length = l.length := by
  simp [shift1]

theorem FVal.sub_nan (x : FVal) : x.sub FVal.nan = FVal.nan := by cases x <;> rfl

theorem FVal.nan_sub (x : FVal) : FVal.nan.sub x = FVal.nan := by cases x <;> rfl

theorem FVal.mul_nan (x : FVal) : x.mul FVal.nan = FVal.nan := by cases x <;> rfl

theorem FVal.nan_div (x : FVal) : FVal.nan.div x = FVal.nan := by cases x <;> rfl

theorem FVal.div_nan (x : FVal) : x.div FVal.nan = FVal.nan := by cases x <;> rfl

theorem FVal.nan_lt (x : FVal) : FVal.nan.lt x = false := by cases x <;> rfl

theorem FVal.lt_nan (x : FVal) : x.lt FVal.nan = false := by cases x <;> rfl

/-! Lengths of the series that gate the presence checks inside
calculate_all_indicators (with the synthetic high/low/volume series written
exactly as they appear there after inlining). -/

theorem length_calc_bb_upper (prices : List ℚ) :
    (calculate_bollinger_bands (seriesOf prices) 20 2).1.length = prices.length := by
  simp [calculate_bollinger_bands, calculate_sma, length_rollApply, seriesOf]

theorem length_calc_macd_line (prices : List ℚ) :
    (calculate_macd (seriesOf prices) 12 26 9).1.length = prices.length := by
  simp [calculate_macd, length_calculate_ema, seriesOf]

theorem length_calc_stoch_k (prices : List ℚ) :
    (calculate_stochastic (prices.map (fun p => FVal.fin (p * (101 / 100))))
      (prices.map (fun p => FVal.fin (p * (99 / 100)))) (seriesOf prices) 14 3).1.length =
      prices.length := by
  simp [calculate_stochastic, length_rollApply, seriesOf]

theorem length_calc_atr (prices : List ℚ) :
    (calculate_atr (prices.map (fun p => FVal.fin (p * (101 / 100))))
      (prices.map (fun p => FVal.fin (p * (99 / 100)))) (seriesOf prices) 14).length =
      prices.length := by
  simp [calculate_atr, length_rollApply, length_shift1, seriesOf]

theorem length_calc_obv (prices : List ℚ) (vol : List FVal) (hv : vol.length = prices.length) :
    (calculate_obv (seriesOf prices) vol).length = prices.length := by
  simp [calculate_obv, length_cumsumSkip, length_sdiff, seriesOf, hv]

theorem calculate_rsi_eq_nil (prices : List ℚ) (h : prices.length < 15) :
    calculate_rsi prices 14 = [] := by
  simp [calculate_rsi, h]

/-! Claim theorems. -/

/-- Helper for the amended C1 statement: the analysis record with the
`timestamp` entry removed. -/
def eraseTimestamp (a : AssetAnalysis) : AssetAnalysis := { a with timestamp := none }

/-- C1 amended: analyze_asset is a pure function of the price series, the
symbol, the asset type and its two environment reads (the clock and the
market-hours flag); with the market-hours flag held fixed, the clock reading
influences nothing but the stored `timestamp`, so the outputs of two calls
agree after erasing that field. -/
theorem analyze_asset_deterministic_modulo_timestamp
    (prices : List ℚ) (symbol asset_type : String) (now₁ now₂ : ℕ) (marketOpen : Bool) :
    eraseTimestamp (analyze_asset prices symbol asset_type now₁ marketOpen) =
    eraseTimestamp (analyze_asset prices symbol asset_type now₂ marketOpen) := by
  by_cases hc : calculate_all_indicators prices = ({} : IndicatorDict) <;>
    simp [analyze_asset, eraseTimestamp, hc]

/-- C6: the consensus vote is non-neutral exactly when one side has at least
two votes and strictly more votes than the other side; it then names the
winning side, and in every other case it is neutral. -/
theorem consensus_majority_rule (votes : List Vote) :
    (consensusOf votes = Vote.buy ↔
      2 ≤ votes.count Vote.buy ∧ votes.count Vote.sell < votes.count Vote.buy) ∧
    (consensusOf votes = Vote.sell ↔
      2 ≤ votes.count Vote.sell ∧ votes.count Vote.buy < votes.count Vote.sell) ∧
    (consensusOf votes = Vote.neutral ↔
      ¬(2 ≤ votes.count Vote.buy ∧ votes.count Vote.sell < votes.count Vote.buy) ∧
      ¬(2 ≤ votes.count Vote.sell ∧ votes.count Vote.buy < votes.count Vote.sell)) := by
  by_cases h1 : votes.count Vote.sell < votes.count Vote.buy ∧ 2 ≤ votes.count Vote.buy <;>
    by_cases h2 : votes.count Vote.buy < votes.count Vote.sell ∧ 2 ≤ votes.count Vote.sell <;>
    simp [consensusOf, h1, h2] <;> omega

/-- The confidence rule as amended: VeryHigh requires every present signal to
be on the buy side or every present signal to be on the sell side (identical
neutral signals do not qualify); then at least 75 percent on one side gives
High, at least 50 percent gives Medium, and anything else, including a
unanimous neutral dictionary, gives Low. -/
def confidenceSpec (l : List Sig) : Conf :=
  if (∀ x ∈ l, isBuyFam x = true) ∨ (∀ x ∈ l, isSellFam x = true) then Conf.veryHigh
  else if 3 * l.length ≤ 4 * l.countP isBuyFam ∨ 3 * l.length ≤ 4 * l.countP isSellFam then
    Conf.high
  else if l.length ≤ 2 * l.countP isBuyFam ∨ l.length ≤ 2 * l.countP isSellFam then
    Conf.medium
  else Conf.low

theorem qcast_le_three_quarters (n b : ℕ) :
    ((n : ℚ) * (3/4) ≤ (b : ℚ)) ↔ 3 * n ≤ 4 * b := by
  constructor
  · intro h
    have h4 : (3 * n : ℚ) ≤ 4 * b := by linarith
    exact_mod_cast h4
  · intro h
    have h4 : (3 * n : ℚ) ≤ 4 * b := by exact_mod_cast h
    linarith

theorem qcast_le_half (n b : ℕ) :
    ((n : ℚ) * (1/2) ≤ (b : ℚ)) ↔ n ≤ 2 * b := by
  constructor
  · intro h
    have h2 : (n : ℚ) ≤ 2 * b := by linarith
    exact_mod_cast h2
  · intro h
    have h2 : (n : ℚ) ≤ 2 * b := by exact_mod_cast h
    linarith

/-- C2 amended: on every non-empty list of present per-timeframe signals the
computed confidence follows the amended rule `confidenceSpec`: VeryHigh
exactly when all signals are buy-family or all are sell-family (not merely
identical), High when one family holds at least 75 percent, Medium at 50
percent, Low otherwise. -/
theorem confidence_characterization (l : List Sig) (h : l ≠ []) :
    confidenceOf l = confidenceSpec l := by
  have hne : l.isEmpty = false := by simp [h]
  unfold confidenceOf confidenceSpec
  simp only [hne, Bool.false_eq_true, if_false, ← List.countP_eq_length,
    ← qcast_le_three_quarters, ← qcast_le_half]

/-- Witness for the amended C2 theorem at a concrete mixed signal list. -/
theorem confidence_characterization_witness :
    confidenceOf [Sig.buy, Sig.strong_buy, Sig.neutral, Sig.sell] =
      confidenceSpec [Sig.buy, Sig.strong_buy, Sig.neutral, Sig.sell] :=
  confidence_characterization _ (by decide)

/-- The overall score as the spec words it: the weighted mean of the present
per-timeframe scores, each weight divided by the sum of the present weights
so that the effective weights sum to 1. -/
def specTotalWeight (r : Recs) : ℚ :=
  (if r.intraday.isSome then (1/10 : ℚ) else 0) +
  (if r.short_term.isSome then (1/4 : ℚ) else 0) +
  (if r.medium_term.isSome then (7/20 : ℚ) else 0) +
  (if r.long_term.isSome then (3/10 : ℚ) else 0)

/-- Sum of weight times score over the present timeframes. -/
def specWeightedSum (r : Recs) : ℚ :=
  (match r.intraday with | some a => (1/10 : ℚ) * a.score | none => 0) +
  (match r.short_term with | some a => (1/4 : ℚ) * a.score | none => 0) +
  (match r.medium_term with | some a => (7/20 : ℚ) * a.score | none => 0) +
  (match r.long_term with | some a => (3/10 : ℚ) * a.score | none => 0)

/-- Weighted mean with renormalized weights, following the spec's words. -/
def specOverallMean (r : Recs) : ℚ :=
  (match r.intraday with | some a => ((1/10 : ℚ) / specTotalWeight r) * a.score | none => 0) +
  (match r.short_term with | some a => ((1/4 : ℚ) / specTotalWeight r) * a.score | none => 0) +
  (match r.medium_term with | some a => ((7/20 : ℚ) / specTotalWeight r) * a.score | none => 0) +
  (match r.long_term with | some a => ((3/10 : ℚ) / specTotalWeight r) * a.score | none => 0)

theorem overall_foldl_eq (r : Recs) :
    ((weightedParts r).foldl (fun st wa => match wa.2 with
      | some a => (st.1 + a.score * wa.1, st.2 + wa.1)
      | none => st) ((0 : ℚ), (0 : ℚ))) = (specWeightedSum r, specTotalWeight r) := by
  rcases r with ⟨oi, os, om, ol⟩
  cases oi <;> cases os <;> cases om <;> cases ol <;>
    simp [weightedParts, specWeightedSum, specTotalWeight, mul_comm]

theorem specTotalWeight_pos (r : Recs)
    (h : r.intraday.isSome ∨ r.short_term.isSome ∨ r.medium_term.isSome ∨ r.long_term.isSome) :
    0 < specTotalWeight r := by
  rcases r with ⟨oi, os, om, ol⟩
  cases oi <;> cases os <;> cases om <;> cases ol <;> simp [specTotalWeight] at h ⊢ <;> norm_num

theorem specOverallMean_eq_div (r : Recs) (hW : specTotalWeight r ≠ 0) :
    specOverallMean r = specWeightedSum r / specTotalWeight r := by
  rcases r with ⟨oi, os, om, ol⟩
  unfold specOverallMean specWeightedSum
  cases oi <;> cases os <;> cases om <;> cases ol <;> simp <;> field_simp <;> ring

/-- C5: for every non-empty set of present per-timeframe analyses the overall
score is the weighted mean of the present scores under the fixed weights
0.10 / 0.25 / 0.35 / 0.30 renormalized over the present timeframes, and the
overall signal follows the stated thresholds on that weighted mean. -/
theorem overall_score_weighted_mean (r : Recs)
    (h : r.intraday.isSome ∨ r.short_term.isSome ∨ r.medium_term.isSome ∨ r.long_term.isSome) :
    (calculate_overall_score r).score = specOverallMean r ∧
    ((calculate_overall_score r).signal = Sig.strong_buy ↔ 3 ≤ specOverallMean r) ∧
    ((calculate_overall_score r).signal = Sig.buy ↔
      1 ≤ specOverallMean r ∧ specOverallMean r < 3) ∧
    ((calculate_overall_score r).signal = Sig.strong_sell ↔ specOverallMean r ≤ -3) ∧
    ((calculate_overall_score r).signal = Sig.sell ↔
      specOverallMean r ≤ -1 ∧ -3 < specOverallMean r) ∧
    ((calculate_overall_score r).signal = Sig.neutral ↔
      -1 < specOverallMean r ∧ specOverallMean r < 1) := by
  have hW : 0 < specTotalWeight r := specTotalWeight_pos r h
  have hdiv : specWeightedSum r / specTotalWeight r = specOverallMean r :=
    (specOverallMean_eq_div r (ne_of_gt hW)).symm
  have hcore : calculate_overall_score r =
      { score := specOverallMean r
        signal :=
          if 3 ≤ specOverallMean r then Sig.strong_buy
          else if 1 ≤ specOverallMean r then Sig.buy
          else if specOverallMean r ≤ -3 then Sig.strong_sell
          else if specOverallMean r ≤ -1 then Sig.sell
          else Sig.neutral
        confidence := calculate_confidence r } := by
    unfold calculate_overall_score
    rw [overall_foldl_eq r]
    simp only [hW, if_true, hdiv]
  rw [hcore]
  refine ⟨rfl, ?_⟩
  split_ifs with h1 h2 h3 h4 <;>
    simp only [reduceCtorEq, false_iff, true_iff, iff_true, iff_false, not_and, not_lt,
      not_le] <;>
    (repeat' constructor) <;> intros <;> linarith

/-- Witness for C5 with only the three always-present timeframes. -/
theorem overall_score_weighted_mean_witness :
    (calculate_overall_score
      { intraday := none
        short_term := some { signal := Sig.buy, score := 4, factors := [] }
        medium_term := some { signal := Sig.neutral, score := 0, factors := [] }
        long_term := some { signal := Sig.sell, score := -2, factors := [] } }).score =
    specOverallMean
      { intraday := none
        short_term := some { signal := Sig.buy, score := 4, factors := [] }
        medium_term := some { signal := Sig.neutral, score := 0, factors := [] }
        long_term := some { signal := Sig.sell, score := -2, factors := [] } } :=
  (overall_score_weighted_mean _ (by simp)).1

/-- Below 14 samples the stochastic %K rolling minimum is NaN at the last
index, so the %K value stored for the latest sample is NaN. -/
theorem stoch_k_last_nan (high low close : List FVal)
    (hh : high.length = close.length) (hl : low.length = close.length)
    (hpos : 0 < close.length) (hlt : close.length < 14) :
    ilocLast (calculate_stochastic high low close 14 3).1 = FVal.nan := by
  have hn1 : close.length - 1 < close.length := by omega
  have hll : (rollApply wmin 14 low).length = close.length := by
    rw [length_rollApply, hl]
  have hA : (List.zipWith FVal.sub close (rollApply wmin 14 low)).length = close.length := by
    simp [hll]
  have hB : (List.zipWith FVal.sub (rollApply wmax 14 high)
      (rollApply wmin 14 low)).length = close.length := by
    simp [length_rollApply, hll, hh]
  unfold calculate_stochastic ilocLast
  dsimp only
  rw [List.length_zipWith, hA, hB, Nat.min_self]
  rw [nthF_zipWith _ _ _ _ (by omega) (by omega)]
  rw [nthF_zipWith _ _ _ _ (by omega) (by rw [hll]; omega)]
  rw [nthF_rollApply _ _ _ _ (by rw [hl]; omega)]
  rw [if_pos (by omega)]
  rw [FVal.sub_nan, FVal.nan_div]
  rfl

/-- Below 14 samples the ATR rolling mean is NaN at the last index. -/
theorem atr_last_nan (high low close : List FVal)
    (hh : high.length = close.length) (hl : low.length = close.length)
    (hpos : 0 < close.length) (hlt : close.length < 14) :
    ilocLast (calculate_atr high low close 14) = FVal.nan := by
  have hTR : (List.zipWith FVal.maxSkip
      (List.zipWith FVal.maxSkip (List.zipWith FVal.sub high low)
        ((List.zipWith FVal.sub high (shift1 close)).map FVal.abs))
      ((List.zipWith FVal.sub low (shift1 close)).map FVal.abs)).length = close.length := by
    simp [length_shift1, hh, hl]
  unfold calculate_atr ilocLast
  dsimp only
  rw [length_rollApply, hTR, nthF_rollApply _ _ _ _ (by rw [hTR]; omega), if_pos (by omega)]

/-- Below 20 samples the SMA(20) rolling mean is NaN at the last index. -/
theorem sma20_last_nan (close : List FVal) (hpos : 0 < close.length)
    (hlt : close.length < 20) :
    ilocLast (calculate_sma close 20) = FVal.nan := by
  unfold calculate_sma ilocLast
  rw [length_rollApply, nthF_rollApply _ _ _ _ (by omega), if_pos (by omega)]

/-- From 15 samples on, the RSI series has the same length as the input. -/
theorem length_calculate_rsi (prices : List ℚ) (h : ¬prices.length < 15) :
    (calculate_rsi prices 14).length = prices.length := by
  simp [calculate_rsi, h, length_rollApply, length_sdiff, seriesOf]

/-- In _analyze_short_term, a NaN sma_20 with sma_10 and price_current
present makes the moving-average comparison false, so the bearish
SMA10 < SMA20 factor (worth -2 points) is appended. -/
theorem short_term_bearish_of_nan_sma20 (ind : IndicatorDict) (sd : SignalsDict)
    (h20 : ind.sma_20 = some FVal.nan) (h10 : ind.sma_10.isSome = true)
    (hpc : ind.price_current.isSome = true) :
    ((ind.sma_20.getD FVal.nan).lt (ind.sma_10.getD FVal.nan)) = false ∧
    Factor.smaBearCross ∈ (analyze_short_term ind sd).factors := by
  have hcmp : ((ind.sma_20.getD FVal.nan).lt (ind.sma_10.getD FVal.nan)) = false := by
    rw [h20]
    simp [FVal.nan_lt]
  refine ⟨hcmp, ?_⟩
  have hcond : (ind.price_current.isSome && ind.sma_10.isSome && ind.sma_20.isSome) = true := by
    rw [h20]
    simp [h10, hpc]
  unfold analyze_short_term
  simp only [hcond, if_true, hcmp, if_false]
  simp [List.mem_append]

/-- C9: on a series of at least 5 and fewer than 20 samples, sma_20 is stored
as NaN (its 20-sample window never fills), the comparison sma_10 > sma_20 is
false because every NaN comparison is false, and the short-term analyser
therefore always appends the -2 point SMA10 < SMA20 bearish factor, although
neither moving average is meaningfully defined. -/
theorem nan_sma20_forces_bearish_cross (prices : List ℚ)
    (h5 : 5 ≤ prices.length) (h20 : prices.length < 20) :
    (calculate_all_indicators prices).sma_20 = some FVal.nan ∧
    (((calculate_all_indicators prices).sma_20.getD FVal.nan).lt
      ((calculate_all_indicators prices).sma_10.getD FVal.nan)) = false ∧
    ∀ sd, Factor.smaBearCross ∈
      (analyze_short_term (calculate_all_indicators prices) sd).factors := by
  have hnil : prices ≠ [] := by
    intro h
    rw [h] at h5
    simp at h5
  have hne : prices.isEmpty = false := by simp [hnil]
  have hpos : 0 < prices.length := List.length_pos.mpr hnil
  have hnot5 : ¬prices.length < 5 := by omega
  have hbb : (calculate_bollinger_bands (seriesOf prices) 20 2).1.isEmpty = false := by
    rw [List.isEmpty_eq_false, ← List.length_pos, length_calc_bb_upper]
    exact hpos
  have hmacd : (calculate_macd (seriesOf prices) 12 26 9).1.isEmpty = false := by
    rw [List.isEmpty_eq_false, ← List.length_pos, length_calc_macd_line]
    exact hpos
  have hstoch : (calculate_stochastic (prices.map (fun p => FVal.fin (p * (101 / 100))))
      (prices.map (fun p => FVal.fin (p * (99 / 100)))) (seriesOf prices) 14 3).1.isEmpty =
      false := by
    rw [List.isEmpty_eq_false, ← List.length_pos, length_calc_stoch_k]
    exact hpos
  have hatr : (calculate_atr (prices.map (fun p => FVal.fin (p * (101 / 100))))
      (prices.map (fun p => FVal.fin (p * (99 / 100)))) (seriesOf prices) 14).isEmpty =
      false := by
    rw [List.isEmpty_eq_false, ← List.length_pos, length_calc_atr]
    exact hpos
  have hobv : calculate_obv (seriesOf prices)
      (List.replicate prices.length (FVal.fin 100000)) ≠ [] := by
    rw [← List.length_pos, length_calc_obv prices _ (by simp)]
    exact hpos
  have hsmaval : ilocLast (calculate_sma (seriesOf prices) 20) = FVal.nan :=
    sma20_last_nan _ (by simpa [seriesOf] using hpos) (by simpa [seriesOf] using h20)
  have hfields : (calculate_all_indicators prices).sma_20 = some FVal.nan ∧
      (calculate_all_indicators prices).sma_10.isSome = true ∧
      (calculate_all_indicators prices).price_current.isSome = true := by
    unfold calculate_all_indicators
    by_cases hr15 : prices.length < 15
    · have hrsi : calculate_rsi prices 14 = [] := calculate_rsi_eq_nil prices hr15
      simp [hne, hrsi, hbb, hmacd, hstoch, hatr, hobv, hnot5, hsmaval]
    · have hrsi : (calculate_rsi prices 14).isEmpty = false := by
        rw [List.isEmpty_eq_false, ← List.length_pos, length_calculate_rsi prices hr15]
        exact hpos
      simp [hne, hrsi, hbb, hmacd, hstoch, hatr, hobv, hnot5, hsmaval]
  have hmain := fun sd => short_term_bearish_of_nan_sma20
    (calculate_all_indicators prices) sd hfields.1 hfields.2.1 hfields.2.2
  exact ⟨hfields.1, (hmain {}).1, fun sd => (hmain sd).2⟩

/-- Witness for C9 on a concrete six-sample series. -/
theorem nan_sma20_forces_bearish_cross_witness :
    (calculate_all_indicators [2, 4, 6, 8, 10, 12]).sma_20 = some FVal.nan ∧
    (((calculate_all_indicators [2, 4, 6, 8, 10, 12]).sma_20.getD FVal.nan).lt
      ((calculate_all_indicators [2, 4, 6, 8, 10, 12]).sma_10.getD FVal.nan)) = false ∧
    ∀ sd, Factor.smaBearCross ∈
      (analyze_short_term (calculate_all_indicators [2, 4, 6, 8, 10, 12]) sd).factors :=
  nan_sma20_forces_bearish_cross [2, 4, 6, 8, 10, 12] (by decide) (by decide)

/-- C4 amended: on a non-empty series of fewer than 14 samples the rsi key is
genuinely absent (the RSI helper returns an empty series below 15 samples),
but stoch_k and atr are present with value NaN: their rolling windows are
incomplete, the resulting last value is NaN, yet the emptiness checks that
gate the assignments test the whole series, not the value.  analyze_asset
still returns a normal (non-error) analysis dictionary. -/
theorem short_series_fields (prices : List ℚ) (hnil : prices ≠ [])
    (hlen : prices.length < 14) :
    (calculate_all_indicators prices).rsi = none ∧
    (calculate_all_indicators prices).stoch_k = some FVal.nan ∧
    (calculate_all_indicators prices).atr = some FVal.nan ∧
    ∀ symbol asset_type now marketOpen,
      (analyze_asset prices symbol asset_type now marketOpen).error = none := by
  have hne : prices.isEmpty = false := by simp [hnil]
  have hpos : 0 < prices.length := List.length_pos.mpr hnil
  have hrsi : calculate_rsi prices 14 = [] := calculate_rsi_eq_nil prices (by omega)
  have hbb : (calculate_bollinger_bands (seriesOf prices) 20 2).1.isEmpty = false := by
    rw [List.isEmpty_eq_false, ← List.length_pos, length_calc_bb_upper]
    exact hpos
  have hmacd : (calculate_macd (seriesOf prices) 12 26 9).1.isEmpty = false := by
    rw [List.isEmpty_eq_false, ← List.length_pos, length_calc_macd_line]
    exact hpos
  have hstoch : (calculate_stochastic (prices.map (fun p => FVal.fin (p * (101 / 100))))
      (prices.map (fun p => FVal.fin (p * (99 / 100)))) (seriesOf prices) 14 3).1.isEmpty =
      false := by
    rw [List.isEmpty_eq_false, ← List.length_pos, length_calc_stoch_k]
    exact hpos
  have hatr : (calculate_atr (prices.map (fun p => FVal.fin (p * (101 / 100))))
      (prices.map (fun p => FVal.fin (p * (99 / 100)))) (seriesOf prices) 14).isEmpty =
      false := by
    rw [List.isEmpty_eq_false, ← List.length_pos, length_calc_atr]
    exact hpos
  have hobv : calculate_obv (seriesOf prices)
      (List.replicate prices.length (FVal.fin 100000)) ≠ [] := by
    rw [← List.length_pos, length_calc_obv prices _ (by simp)]
    exact hpos
  have hstochval : ilocLast (calculate_stochastic
      (prices.map (fun p => FVal.fin (p * (101 / 100))))
      (prices.map (fun p => FVal.fin (p * (99 / 100)))) (seriesOf prices) 14 3).1 =
      FVal.nan :=
    stoch_k_last_nan _ _ _ (by simp [seriesOf]) (by simp [seriesOf])
      (by simpa [seriesOf] using hpos) (by simpa [seriesOf] using hlen)
  have hatrval : ilocLast (calculate_atr (prices.map (fun p => FVal.fin (p * (101 / 100))))
      (prices.map (fun p => FVal.fin (p * (99 / 100)))) (seriesOf prices) 14) = FVal.nan :=
    atr_last_nan _ _ _ (by simp [seriesOf]) (by simp [seriesOf])
      (by simpa [seriesOf] using hpos) (by simpa [seriesOf] using hlen)
  have hfields : (calculate_all_indicators prices).rsi = none ∧
      (calculate_all_indicators prices).stoch_k = some FVal.nan ∧
      (calculate_all_indicators prices).atr = some FVal.nan ∧
      (calculate_all_indicators prices).sma_10.isSome = true := by
    unfold calculate_all_indicators
    by_cases h5 : prices.length < 5 <;>
      simp [hne, hrsi, hbb, hmacd, hstoch, hatr, hobv, h5, hstochval, hatrval]
  refine ⟨hfields.1, hfields.2.1, hfields.2.2.1, ?_⟩
  intro symbol asset_type now marketOpen
  have hneq : calculate_all_indicators prices ≠ ({} : IndicatorDict) := by
    intro hEq
    have := hfields.2.2.2
    rw [hEq] at this
    simp at this
  simp [analyze_asset, hneq]

/-- Witness for the amended C4 theorem on a concrete ten-sample series. -/
theorem short_series_fields_witness :
    (calculate_all_indicators [1, 2, 3, 4, 5, 6, 7, 8, 9, 10]).rsi = none ∧
    (calculate_all_indicators [1, 2, 3, 4, 5, 6, 7, 8, 9, 10]).stoch_k = some FVal.nan ∧
    (calculate_all_indicators [1, 2, 3, 4, 5, 6, 7, 8, 9, 10]).atr = some FVal.nan ∧
    ∀ symbol asset_type now marketOpen,
      (analyze_asset [1, 2, 3, 4, 5, 6, 7, 8, 9, 10]
        symbol asset_type now marketOpen).error = none :=
  short_series_fields [1, 2, 3, 4, 5, 6, 7, 8, 9, 10] (by decide) (by decide)

/-- C10: on a resampled series of 2 to 4 samples the OBV trend computation
indexes the fifth-from-last OBV value (`obv_values.iloc[-5]`), which raises
IndexError; the enclosing try/except returns the dictionary built so far, so
calculate_all_indicators returns normally with the obv key present while
obv_trend, price_current, price_change_24h, price_change_7d, support and
resistance are all absent even though the series has enough samples for the
price-derived fields. -/
theorem short_series_obv_indexerror_truncation (prices : List ℚ)
    (h2 : 2 ≤ prices.length) (h4 : prices.length ≤ 4) :
    (calculate_all_indicators prices).obv.isSome = true ∧
    (calculate_all_indicators prices).obv_trend = none ∧
    (calculate_all_indicators prices).price_current = none ∧
    (calculate_all_indicators prices).price_change_24h = none ∧
    (calculate_all_indicators prices).price_change_7d = none ∧
    (calculate_all_indicators prices).support = none ∧
    (calculate_all_indicators prices).resistance = none := by
  have hnil : prices ≠ [] := by
    intro h
    rw [h] at h2
    simp at h2
  have hne : prices.isEmpty = false := by simp [hnil]
  have h5 : prices.length < 5 := by omega
  have hpos : 0 < prices.length := by omega
  have hrsi : calculate_rsi prices 14 = [] := calculate_rsi_eq_nil prices (by omega)
  have hbb : (calculate_bollinger_bands (seriesOf prices) 20 2).1.isEmpty = false := by
    rw [List.isEmpty_eq_false, ← List.length_pos, length_calc_bb_upper]
    exact hpos
  have hmacd : (calculate_macd (seriesOf prices) 12 26 9).1.isEmpty = false := by
    rw [List.isEmpty_eq_false, ← List.length_pos, length_calc_macd_line]
    exact hpos
  have hstoch : (calculate_stochastic (prices.map (fun p => FVal.fin (p * (101 / 100))))
      (prices.map (fun p => FVal.fin (p * (99 / 100)))) (seriesOf prices) 14 3).1.isEmpty =
      false := by
    rw [List.isEmpty_eq_false, ← List.length_pos, length_calc_stoch_k]
    exact hpos
  have hatr : (calculate_atr (prices.map (fun p => FVal.fin (p * (101 / 100))))
      (prices.map (fun p => FVal.fin (p * (99 / 100)))) (seriesOf prices) 14).isEmpty =
      false := by
    rw [List.isEmpty_eq_false, ← List.length_pos, length_calc_atr]
    exact hpos
  have hobv : calculate_obv (seriesOf prices)
      (List.replicate prices.length (FVal.fin 100000)) ≠ [] := by
    rw [← List.length_pos, length_calc_obv prices _ (by simp)]
    exact hpos
  unfold calculate_all_indicators
  simp [hne, hrsi, hbb, hmacd, hstoch, hatr, hobv, h5]

/-- Witness for C10 on a concrete three-sample series. -/
theorem short_series_obv_indexerror_truncation_witness :
    (calculate_all_indicators [1, 2, 3]).obv.isSome = true ∧
    (calculate_all_indicators [1, 2, 3]).obv_trend = none ∧
    (calculate_all_indicators [1, 2, 3]).price_current = none ∧
    (calculate_all_indicators [1, 2, 3]).price_change_24h = none ∧
    (calculate_all_indicators [1, 2, 3]).price_change_7d = none ∧
    (calculate_all_indicators [1, 2, 3]).support = none ∧
    (calculate_all_indicators [1, 2, 3]).resistance = none :=
  short_series_obv_indexerror_truncation [1, 2, 3] (by decide) (by decide)

/-- The gains series of calculate_rsi: positive deltas, 0 elsewhere (also at
index 0, where the delta is NaN and the where-condition is false). -/
def rsiGains (prices : List ℚ) : List FVal :=
  (sdiff (seriesOf prices)).map (fun v => if (FVal.fin 0).lt v then v else FVal.fin 0)

/-- The losses series of calculate_rsi: negated negative deltas, 0 elsewhere. -/
def rsiLosses (prices : List ℚ) : List FVal :=
  (sdiff (seriesOf prices)).map (fun v => (if v.lt (FVal.fin 0) then v else FVal.fin 0).neg)

theorem calculate_rsi_eq (prices : List ℚ) (h : ¬prices.length < 15) :
    calculate_rsi prices 14 =
      (List.zipWith FVal.div (rollApply (wmean 14) 14 (rsiGains prices))
        (rollApply (wmean 14) 14 (rsiLosses prices))).map
        (fun rs => (FVal.fin 100).sub ((FVal.fin 100).div ((FVal.fin 1).add rs))) := by
  simp [calculate_rsi, h, rsiGains, rsiLosses]

theorem length_rsiGains (prices : List ℚ) : (rsiGains prices).length = prices.length := by
  simp [rsiGains, length_sdiff, seriesOf]

theorem length_rsiLosses (prices : List ℚ) : (rsiLosses prices).length = prices.length := by
  simp [rsiLosses, length_sdiff, seriesOf]

theorem fin_sub_fin (a b : ℚ) : (FVal.fin a).sub (FVal.fin b) = FVal.fin (a - b) := by
  simp [FVal.sub, FVal.neg, FVal.add, sub_eq_add_neg]

theorem window_length (xs : List FVal) (n i : ℕ) (hi : i < xs.length) (hn : n ≤ i + 1) :
    (window n xs i).length = n := by
  simp only [window, List.length_drop, List.length_take]
  omega

theorem window_mem_nthF (xs : List FVal) (n i : ℕ) (hi : i < xs.length) (hn : n ≤ i + 1) :
    ∀ x ∈ window n xs i, ∃ j, i + 1 - n ≤ j ∧ j ≤ i ∧ x = nthF xs j := by
  intro x hx
  have hwl : (window n xs i).length = n := window_length xs n i hi hn
  rw [List.mem_iff_getElem] at hx
  obtain ⟨m, hm, hval⟩ := hx
  have hmn : m < n := by rw [hwl] at hm; exact hm
  refine ⟨i + 1 - n + m, Nat.le_add_right _ _, by omega, ?_⟩
  rw [← hval]
  have hidx : i + 1 - n + m < xs.length := by omega
  simp only [window, List.getElem_drop, List.getElem_take]
  simp [nthF, List.getD_eq_getElem?_getD, List.getElem?_eq_getElem hidx]

theorem fsum_all_zero (l : List FVal) (h : ∀ x ∈ l, x = FVal.fin 0) :
    fsum l = FVal.fin 0 := by
  induction l with
  | nil => rfl
  | cons x r ih =>
    have hx := h x (by simp)
    have hr := ih (fun y hy => h y (by simp [hy]))
    simp [fsum] at hr ⊢
    rw [hx, hr]
    simp [FVal.add]

theorem fsum_all_pos (l : List FVal) (h : ∀ x ∈ l, ∃ q, x = FVal.fin q ∧ 0 < q) :
    ∃ S, fsum l = FVal.fin S ∧ 0 ≤ S ∧ (l ≠ [] → 0 < S) := by
  induction l with
  | nil => exact ⟨0, rfl, le_refl 0, fun hc => absurd rfl hc⟩
  | cons x r ih =>
    obtain ⟨q, hx, hq⟩ := h x (by simp)
    obtain ⟨S, hS, hS0, _⟩ := ih (fun y hy => h y (by simp [hy]))
    refine ⟨q + S, ?_, by linarith, fun _ => by linarith⟩
    simp only [fsum, List.foldr_cons] at hS ⊢
    rw [hx, hS]
    simp [FVal.add]

theorem not_any_isNaN_of_fin (l : List FVal) (h : ∀ x ∈ l, ∃ q, x = FVal.fin q) :
    l.any FVal.isNaN = false := by
  rw [List.any_eq_false]
  intro x hx
  obtain ⟨q, rfl⟩ := h x hx
  simp [FVal.isNaN]

theorem wmean_all_zero (n : ℕ) (l : List FVal) (hn : (n : ℚ) ≠ 0)
    (h : ∀ x ∈ l, x = FVal.fin 0) : wmean n l = FVal.fin 0 := by
  have hnan : l.any FVal.isNaN = false :=
    not_any_isNaN_of_fin l (fun x hx => ⟨0, h x hx⟩)
  rw [wmean, hnan]
  simp only [Bool.false_eq_true, if_false]
  rw [fsum_all_zero l h]
  simp [FVal.div, hn]

theorem wmean_all_pos (n : ℕ) (l : List FVal) (hn : 0 < (n : ℚ)) (hne : l ≠ [])
    (h : ∀ x ∈ l, ∃ q, x = FVal.fin q ∧ 0 < q) :
    ∃ g, wmean n l = FVal.fin g ∧ 0 < g := by
  have hnan : l.any FVal.isNaN = false :=
    not_any_isNaN_of_fin l (fun x hx => ⟨(h x hx).choose, (h x hx).choose_spec.1⟩)
  obtain ⟨S, hS, _, hSpos⟩ := fsum_all_pos l h
  refine ⟨S / (n : ℚ), ?_, div_pos (hSpos hne) hn⟩
  rw [wmean, hnan]
  simp only [Bool.false_eq_true, if_false]
  rw [hS]
  simp [FVal.div, ne_of_gt hn]

theorem qnth_eq_get (prices : List ℚ) (k : ℕ) (hk : k < prices.length) :
    qnth prices k = prices.get ⟨k, hk⟩ := by
  simp [qnth, List.getD_eq_getElem?_getD, List.getElem?_eq_getElem hk, List.get_eq_getElem]

theorem chain_lt_qnth (prices : List ℚ) (hch : List.Chain' (· < ·) prices) (j : ℕ)
    (hj : 0 < j) (hlt : j < prices.length) :
    qnth prices (j - 1) < qnth prices j := by
  obtain ⟨k, rfl⟩ : ∃ k, j = k + 1 := ⟨j - 1, by omega⟩
  have hgl := List.chain'_iff_get.mp hch k (by omega)
  rw [Nat.add_sub_cancel, qnth_eq_get prices k (by omega), qnth_eq_get prices (k + 1) hlt]
  exact hgl

theorem chain_gt_qnth (prices : List ℚ) (hch : List.Chain' (· > ·) prices) (j : ℕ)
    (hj : 0 < j) (hlt : j < prices.length) :
    qnth prices j < qnth prices (j - 1) := by
  obtain ⟨k, rfl⟩ : ∃ k, j = k + 1 := ⟨j - 1, by omega⟩
  have hgl := List.chain'_iff_get.mp hch k (by omega)
  rw [Nat.add_sub_cancel, qnth_eq_get prices (k + 1) hlt, qnth_eq_get prices k (by omega)]
  exact hgl

theorem nthF_delta (prices : List ℚ) (j : ℕ) (hj : 0 < j) (hlt : j < prices.length) :
    nthF (sdiff (seriesOf prices)) j = FVal.fin (qnth prices j - qnth prices (j - 1)) := by
  rw [nthF_sdiff _ _ hj (by simpa [seriesOf] using hlt)]
  rw [nthF_seriesOf _ _ hlt, nthF_seriesOf _ _ (by omega)]
  exact fin_sub_fin _ _

theorem nthF_rsiLosses_of_pos_delta (prices : List ℚ) (j : ℕ) (hj : 0 < j)
    (hlt : j < prices.length) (hd : 0 < qnth prices j - qnth prices (j - 1)) :
    nthF (rsiLosses prices) j = FVal.fin 0 := by
  rw [rsiLosses, nthF_map _ _ _ (by simpa [length_sdiff, seriesOf] using hlt)]
  rw [nthF_delta prices j hj hlt]
  have hcond : (FVal.fin (qnth prices j - qnth prices (j - 1))).lt (FVal.fin 0) = false := by
    simp [FVal.lt]
    linarith
  rw [hcond]
  simp [FVal.neg]

theorem nthF_rsiGains_of_pos_delta (prices : List ℚ) (j : ℕ) (hj : 0 < j)
    (hlt : j < prices.length) (hd : 0 < qnth prices j - qnth prices (j - 1)) :
    nthF (rsiGains prices) j = FVal.fin (qnth prices j - qnth prices (j - 1)) := by
  rw [rsiGains, nthF_map _ _ _ (by simpa [length_sdiff, seriesOf] using hlt)]
  rw [nthF_delta prices j hj hlt]
  have hcond : (FVal.fin 0).lt (FVal.fin (qnth prices j - qnth prices (j - 1))) = true := by
    simp [FVal.lt]
    linarith
  rw [hcond]
  simp

theorem nthF_rsiGains_of_neg_delta (prices : List ℚ) (j : ℕ) (hj : 0 < j)
    (hlt : j < prices.length) (hd : qnth prices j - qnth prices (j - 1) < 0) :
    nthF (rsiGains prices) j = FVal.fin 0 := by
  rw [rsiGains, nthF_map _ _ _ (by simpa [length_sdiff, seriesOf] using hlt)]
  rw [nthF_delta prices j hj hlt]
  have hcond : (FVal.fin 0).lt (FVal.fin (qnth prices j - qnth prices (j - 1))) = false := by
    simp [FVal.lt]
    linarith
  rw [hcond]
  simp

theorem nthF_rsiLosses_of_neg_delta (prices : List ℚ) (j : ℕ) (hj : 0 < j)
    (hlt : j < prices.length) (hd : qnth prices j - qnth prices (j - 1) < 0) :
    nthF (rsiLosses prices) j = FVal.fin (-(qnth prices j - qnth prices (j - 1))) := by
  rw [rsiLosses, nthF_map _ _ _ (by simpa [length_sdiff, seriesOf] using hlt)]
  rw [nthF_delta prices j hj hlt]
  have hcond : (FVal.fin (qnth prices j - qnth prices (j - 1))).lt (FVal.fin 0) = true := by
    simp [FVal.lt]
    linarith
  rw [hcond]
  simp [FVal.neg]

theorem rsi_last_formula (prices : List ℚ) (h : 15 < prices.length) :
    ilocLast (calculate_rsi prices 14) =
      (FVal.fin 100).sub ((FVal.fin 100).div ((FVal.fin 1).add
        (FVal.div (nthF (rollApply (wmean 14) 14 (rsiGains prices)) (prices.length - 1))
          (nthF (rollApply (wmean 14) 14 (rsiLosses prices)) (prices.length - 1))))) := by
  have hG : (rollApply (wmean 14) 14 (rsiGains prices)).length = prices.length := by
    rw [length_rollApply, length_rsiGains]
  have hL : (rollApply (wmean 14) 14 (rsiLosses prices)).length = prices.length := by
    rw [length_rollApply, length_rsiLosses]
  rw [calculate_rsi_eq prices (by omega), ilocLast]
  rw [List.length_map, List.length_zipWith, hG, hL, Nat.min_self]
  rw [nthF_map _ _ _ (by rw [List.length_zipWith, hG, hL, Nat.min_self]; omega)]
  rw [nthF_zipWith _ _ _ _ (by rw [hG]; omega) (by rw [hL]; omega)]

theorem avg_last_window (series : List FVal) (prices : List ℚ)
    (hlen : series.length = prices.length) (h : 15 < prices.length) :
    nthF (rollApply (wmean 14) 14 series) (prices.length - 1) =
      wmean 14 (window 14 series (prices.length - 1)) := by
  rw [nthF_rollApply _ _ _ _ (by omega)]
  rw [if_neg (by omega)]

/-- C7: on a strictly monotonically increasing price series longer than 15
samples the latest RSI value is exactly 100 (every delta is positive, the
average loss is 0, RS is plus infinity and 100 - 100/(1+RS) collapses to
100); on a strictly decreasing series of the same length it is exactly 0. -/
theorem rsi_monotone_extremes (prices : List ℚ) (h : 15 < prices.length) :
    (List.Chain' (· < ·) prices → ilocLast (calculate_rsi prices 14) = FVal.fin 100) ∧
    (List.Chain' (· > ·) prices → ilocLast (calculate_rsi prices 14) = FVal.fin 0) := by
  have hwlenG : (window 14 (rsiGains prices) (prices.length - 1)).length = 14 :=
    window_length _ _ _ (by rw [length_rsiGains]; omega) (by omega)
  have hwlenL : (window 14 (rsiLosses prices) (prices.length - 1)).length = 14 :=
    window_length _ _ _ (by rw [length_rsiLosses]; omega) (by omega)
  have hwneG : window 14 (rsiGains prices) (prices.length - 1) ≠ [] := by
    intro hc
    rw [hc] at hwlenG
    simp at hwlenG
  have hmemG := window_mem_nthF (rsiGains prices) 14 (prices.length - 1)
    (by rw [length_rsiGains]; omega) (by omega)
  have hmemL := window_mem_nthF (rsiLosses prices) 14 (prices.length - 1)
    (by rw [length_rsiLosses]; omega) (by omega)
  have hjbound : ∀ j, prices.length - 1 + 1 - 14 ≤ j → j ≤ prices.length - 1 →
      0 < j ∧ j < prices.length := by
    intro j h1 h2
    omega
  constructor
  · intro hch
    have hdelta : ∀ j, 0 < j → j < prices.length →
        0 < qnth prices j - qnth prices (j - 1) := by
      intro j hj hlt
      have := chain_lt_qnth prices hch j hj hlt
      linarith
    have hlosses : nthF (rollApply (wmean 14) 14 (rsiLosses prices)) (prices.length - 1) =
        FVal.fin 0 := by
      rw [avg_last_window _ prices (length_rsiLosses prices) h]
      apply wmean_all_zero 14 _ (by norm_num)
      intro x hx
      obtain ⟨j, hj1, hj2, rfl⟩ := hmemL x hx
      obtain ⟨hj0, hjn⟩ := hjbound j hj1 hj2
      exact nthF_rsiLosses_of_pos_delta prices j hj0 hjn (hdelta j hj0 hjn)
    have hgains : ∃ g, nthF (rollApply (wmean 14) 14 (rsiGains prices))
        (prices.length - 1) = FVal.fin g ∧ 0 < g := by
      rw [avg_last_window _ prices (length_rsiGains prices) h]
      apply wmean_all_pos 14 _ (by norm_num) hwneG
      intro x hx
      obtain ⟨j, hj1, hj2, rfl⟩ := hmemG x hx
      obtain ⟨hj0, hjn⟩ := hjbound j hj1 hj2
      exact ⟨_, nthF_rsiGains_of_pos_delta prices j hj0 hjn (hdelta j hj0 hjn),
        hdelta j hj0 hjn⟩
    obtain ⟨g, hg, hgpos⟩ := hgains
    rw [rsi_last_formula prices h, hg, hlosses]
    have hdiv : FVal.div (FVal.fin g) (FVal.fin 0) = FVal.inf true := by
      simp [FVal.div, ne_of_gt hgpos, hgpos]
    rw [hdiv]
    have hadd : (FVal.fin 1).add (FVal.inf true) = FVal.inf true := rfl
    rw [hadd]
    have hdiv2 : (FVal.fin 100).div (FVal.inf true) = FVal.fin 0 := rfl
    rw [hdiv2, fin_sub_fin]
    norm_num
  · intro hch
    have hdelta : ∀ j, 0 < j → j < prices.length →
        qnth prices j - qnth prices (j - 1) < 0 := by
      intro j hj hlt
      have := chain_gt_qnth prices hch j hj hlt
      linarith
    have hgains : nthF (rollApply (wmean 14) 14 (rsiGains prices)) (prices.length - 1) =
        FVal.fin 0 := by
      rw [avg_last_window _ prices (length_rsiGains prices) h]
      apply wmean_all_zero 14 _ (by norm_num)
      intro x hx
      obtain ⟨j, hj1, hj2, rfl⟩ := hmemG x hx
      obtain ⟨hj0, hjn⟩ := hjbound j hj1 hj2
      exact nthF_rsiGains_of_neg_delta prices j hj0 hjn (hdelta j hj0 hjn)
    have hlosses : ∃ g, nthF (rollApply (wmean 14) 14 (rsiLosses prices))
        (prices.length - 1) = FVal.fin g ∧ 0 < g := by
      rw [avg_last_window _ prices (length_rsiLosses prices) h]
      apply wmean_all_pos 14 _ (by norm_num) (by
        intro hc
        rw [hc] at hwlenL
        simp at hwlenL)
      intro x hx
      obtain ⟨j, hj1, hj2, rfl⟩ := hmemL x hx
      obtain ⟨hj0, hjn⟩ := hjbound j hj1 hj2
      refine ⟨-(qnth prices j - qnth prices (j - 1)), ?_, ?_⟩
      · exact nthF_rsiLosses_of_neg_delta prices j hj0 hjn (hdelta j hj0 hjn)
      · have := hdelta j hj0 hjn
        linarith
    obtain ⟨g, hg, hgpos⟩ := hlosses
    rw [rsi_last_formula prices h, hg, hgains]
    have hdiv : FVal.div (FVal.fin 0) (FVal.fin g) = FVal.fin 0 := by
      simp [FVal.div, ne_of_gt hgpos]
    rw [hdiv]
    have hadd : (FVal.fin 1).add (FVal.fin 0) = FVal.fin 1 := by
      simp [FVal.add]
    rw [hadd]
    have hdiv2 : (FVal.fin 100).div (FVal.fin 1) = FVal.fin 100 := by
      simp [FVal.div]
    rw [hdiv2, fin_sub_fin]
    norm_num

/-- Witness for C7 on concrete increasing and decreasing 17-sample series. -/
theorem rsi_monotone_extremes_witness :
    ilocLast (calculate_rsi
      [1, 2, 3, 4, 5, 6, 7, 8, 9, 10, 11, 12, 13, 14, 15, 16, 17] 14) = FVal.fin 100 ∧
    ilocLast (calculate_rsi
      [17, 16, 15, 14, 13, 12, 11, 10, 9, 8, 7, 6, 5, 4, 3, 2, 1] 14) = FVal.fin 0 :=
  ⟨(rsi_monotone_extremes
      [1, 2, 3, 4, 5, 6, 7, 8, 9, 10, 11, 12, 13, 14, 15, 16, 17] (by decide)).1
      (by norm_num [List.chain'_cons]),
   (rsi_monotone_extremes
      [17, 16, 15, 14, 13, 12, 11, 10, 9, 8, 7, 6, 5, 4, 3, 2, 1] (by decide)).2
      (by norm_num [List.chain'_cons])⟩

theorem ilocLast_seriesOf (prices : List ℚ) (hnil : prices ≠ []) :
    ilocLast (seriesOf prices) = FVal.fin (qnth prices (prices.length - 1)) := by
  have hpos : 0 < prices.length := List.length_pos.mpr hnil
  unfold ilocLast
  rw [length_seriesOf]
  exact nthF_seriesOf _ _ (by omega)

/-- C8 amended: once the series reaches the 5 samples needed to get past the
OBV IndexError, price_change_24h and price_change_7d are always present: when
the series is longer than 24 (resp. 168) samples they hold the percent change
of the latest price against the sample at offset -24 (resp. -168), i.e. 23
(resp. 167) cadence-steps before the latest one, and otherwise they hold 0
rather than being left undefined; below 5 samples both keys are absent
because the whole tail of the computation is skipped. -/
theorem price_change_fields (prices : List ℚ) (hnil : prices ≠ []) :
    (5 ≤ prices.length →
      (calculate_all_indicators prices).price_change_24h =
        some (if 24 < prices.length then
          (((FVal.fin (qnth prices (prices.length - 1))).sub
              (FVal.fin (qnth prices (prices.length - 24)))).div
            (FVal.fin (qnth prices (prices.length - 24)))).mul (FVal.fin 100)
          else FVal.fin 0) ∧
      (calculate_all_indicators prices).price_change_7d =
        some (if 168 < prices.length then
          (((FVal.fin (qnth prices (prices.length - 1))).sub
              (FVal.fin (qnth prices (prices.length - 168)))).div
            (FVal.fin (qnth prices (prices.length - 168)))).mul (FVal.fin 100)
          else FVal.fin 0)) ∧
    (prices.length < 5 →
      (calculate_all_indicators prices).price_change_24h = none ∧
      (calculate_all_indicators prices).price_change_7d = none) := by
  have hne : prices.isEmpty = false := by simp [hnil]
  have hpos : 0 < prices.length := List.length_pos.mpr hnil
  have hbb : (calculate_bollinger_bands (seriesOf prices) 20 2).1.isEmpty = false := by
    rw [List.isEmpty_eq_false, ← List.length_pos, length_calc_bb_upper]
    exact hpos
  have hmacd : (calculate_macd (seriesOf prices) 12 26 9).1.isEmpty = false := by
    rw [List.isEmpty_eq_false, ← List.length_pos, length_calc_macd_line]
    exact hpos
  have hstoch : (calculate_stochastic (prices.map (fun p => FVal.fin (p * (101 / 100))))
      (prices.map (fun p => FVal.fin (p * (99 / 100)))) (seriesOf prices) 14 3).1.isEmpty =
      false := by
    rw [List.isEmpty_eq_false, ← List.length_pos, length_calc_stoch_k]
    exact hpos
  have hatr : (calculate_atr (prices.map (fun p => FVal.fin (p * (101 / 100))))
      (prices.map (fun p => FVal.fin (p * (99 / 100)))) (seriesOf prices) 14).isEmpty =
      false := by
    rw [List.isEmpty_eq_false, ← List.length_pos, length_calc_atr]
    exact hpos
  have hobv : calculate_obv (seriesOf prices)
      (List.replicate prices.length (FVal.fin 100000)) ≠ [] := by
    rw [← List.length_pos, length_calc_obv prices _ (by simp)]
    exact hpos
  have hcur : ilocLast (seriesOf prices) = FVal.fin (qnth prices (prices.length - 1)) :=
    ilocLast_seriesOf prices hnil
  have h24 : nthF (seriesOf prices) (prices.length - 24) =
      FVal.fin (qnth prices (prices.length - 24)) := nthF_seriesOf _ _ (by omega)
  have h168 : nthF (seriesOf prices) (prices.length - 168) =
      FVal.fin (qnth prices (prices.length - 168)) := nthF_seriesOf _ _ (by omega)
  constructor
  · intro h5n
    have hnot5 : ¬prices.length < 5 := by omega
    unfold calculate_all_indicators
    by_cases hr15 : prices.length < 15
    · have hrsi : calculate_rsi prices 14 = [] := calculate_rsi_eq_nil prices hr15
      simp [hne, hrsi, hbb, hmacd, hstoch, hatr, hobv, hnot5, hcur, h24, h168]
    · have hrsi : (calculate_rsi prices 14).isEmpty = false := by
        rw [List.isEmpty_eq_false, ← List.length_pos, length_calculate_rsi prices hr15]
        exact hpos
      simp [hne, hrsi, hbb, hmacd, hstoch, hatr, hobv, hnot5, hcur, h24, h168]
  · intro h5n
    unfold calculate_all_indicators
    have hrsi : calculate_rsi prices 14 = [] := calculate_rsi_eq_nil prices (by omega)
    simp [hne, hrsi, hbb, hmacd, hstoch, hatr, hobv, h5n]

/-- Witness for the amended C8 theorem: a 30-sample series past both the
5-sample and the 24-sample thresholds, and a 3-sample series below the
5-sample threshold. -/
theorem price_change_fields_witness :
    ((calculate_all_indicators
        [1, 2, 3, 4, 5, 6, 7, 8, 9, 10, 11, 12, 13, 14, 15, 16, 17, 18, 19, 20,
         21, 22, 23, 24, 25, 26, 27, 28, 29, 30]).price_change_24h =
      some (if 24 < ([1, 2, 3, 4, 5, 6, 7, 8, 9, 10, 11, 12, 13, 14, 15, 16, 17, 18, 19, 20,
         21, 22, 23, 24, 25, 26, 27, 28, 29, 30] : List ℚ).length then
        (((FVal.fin (qnth [1, 2, 3, 4, 5, 6, 7, 8, 9, 10, 11, 12, 13, 14, 15, 16, 17, 18,
            19, 20, 21, 22, 23, 24, 25, 26, 27, 28, 29, 30]
            (([1, 2, 3, 4, 5, 6, 7, 8, 9, 10, 11, 12, 13, 14, 15, 16, 17, 18, 19, 20,
              21, 22, 23, 24, 25, 26, 27, 28, 29, 30] : List ℚ).length - 1))).sub
            (FVal.fin (qnth [1, 2, 3, 4, 5, 6, 7, 8, 9, 10, 11, 12, 13, 14, 15, 16, 17, 18,
              19, 20, 21, 22, 23, 24, 25, 26, 27, 28, 29, 30]
              (([1, 2, 3, 4, 5, 6, 7, 8, 9, 10, 11, 12, 13, 14, 15, 16, 17, 18, 19, 20,
                21, 22, 23, 24, 25, 26, 27, 28, 29, 30] : List ℚ).length - 24)))).div
          (FVal.fin (qnth [1, 2, 3, 4, 5, 6, 7, 8, 9, 10, 11, 12, 13, 14, 15, 16, 17, 18,
            19, 20, 21, 22, 23, 24, 25, 26, 27, 28, 29, 30]
            (([1, 2, 3, 4, 5, 6, 7, 8, 9, 10, 11, 12, 13, 14, 15, 16, 17, 18, 19, 20,
              21, 22, 23, 24, 25, 26, 27, 28, 29, 30] : List ℚ).length - 24)))).mul
          (FVal.fin 100)
        else FVal.fin 0)) ∧
    ((calculate_all_indicators [2, 3, 4]).price_change_24h = none ∧
      (calculate_all_indicators [2, 3, 4]).price_change_7d = none) :=
  ⟨((price_change_fields
      [1, 2, 3, 4, 5, 6, 7, 8, 9, 10, 11, 12, 13, 14, 15, 16, 17, 18, 19, 20,
       21, 22, 23, 24, 25, 26, 27, 28, 29, 30] (by decide)).1 (by decide)).1,
   (price_change_fields [2, 3, 4] (by decide)).2 (by decide)⟩

section KernelEvaluation

set_option allowUnsafeReducibility true

attribute [local semireducible] Rat.mul Rat.add Rat.div Rat.inv Rat.sub Rat.neg

/-- C1 counterexample: the output of analyze_asset is not determined by the
price series, symbol and asset type alone — two calls with identical such
inputs but different `datetime.now()` readings produce different analysis
dictionaries (the stored `timestamp` differs), so the result is not
bit-identical across calls. -/
theorem analyze_asset_clock_dependent_cex :
    analyze_asset [100] "AAPL" "stock" 0 true ≠ analyze_asset [100] "AAPL" "stock" 1 true := by
  decide

/-- C2 counterexample: a recommendations dictionary whose four present
per-timeframe analyses all carry the identical signal neutral is assigned
confidence Faible (Low) by _calculate_confidence, not Tres elevee (VeryHigh)
as the claim states. -/
theorem confidence_unanimous_neutral_cex :
    calculate_confidence
      { intraday := some { signal := Sig.neutral, score := 0, factors := [] }
        short_term := some { signal := Sig.neutral, score := 0, factors := [] }
        medium_term := some { signal := Sig.neutral, score := 0, factors := [] }
        long_term := some { signal := Sig.neutral, score := 0, factors := [] } } = Conf.low ∧
    Conf.low ≠ Conf.veryHigh := by
  decide

/-- C8 counterexample: on a ten-sample series price_change_24h is present
with value 0 (not left undefined as claimed), and on a strictly increasing
25-sample series it uses the sample at positional offset -24, which lies 23
cadence-steps before the latest sample, not 24: the stored value is 1150
(change from price 2 to price 25) rather than the 2400 that a reference
sample exactly 24 steps prior (price 1) would give. -/
theorem price_change_small_series_present_cex :
    (calculate_all_indicators [1, 2, 3, 4, 5, 6, 7, 8, 9, 10]).price_change_24h =
      some (FVal.fin 0) ∧
    some (FVal.fin 0) ≠ (none : Option FVal) ∧
    (calculate_all_indicators
      [1, 2, 3, 4, 5, 6, 7, 8, 9, 10, 11, 12, 13, 14, 15, 16, 17, 18, 19, 20,
       21, 22, 23, 24, 25]).price_change_24h = some (FVal.fin 1150) ∧
    some (FVal.fin 1150) ≠ some (FVal.fin 2400) := by
  decide

/-- C4 counterexample: on a ten-sample series (fewer than 14 samples) the
stoch_k and atr keys are not absent as claimed: they are present and hold
NaN, because the emptiness checks guarding their assignment test the whole
rolling series, which is non-empty, not the definedness of its last value.
Only rsi is truly absent. -/
theorem short_series_stoch_atr_present_cex :
    (calculate_all_indicators [1, 2, 3, 4, 5, 6, 7, 8, 9, 10]).stoch_k = some FVal.nan ∧
    (calculate_all_indicators [1, 2, 3, 4, 5, 6, 7, 8, 9, 10]).atr = some FVal.nan ∧
    some FVal.nan ≠ (none : Option FVal) ∧
    (calculate_all_indicators [1, 2, 3, 4, 5, 6, 7, 8, 9, 10]).rsi = none := by
  decide

/-- C3 counterexample: on the constant 30-sample series at price 100 the
synthetic high/low proxies (price times 1.01 and 0.99) make the true range 2,
so atr_pct is 2 rather than the claimed 0; the MACD tie (0 > 0 false) scores
-3 and the SMA tie another -2, making the short-term signal strong_sell
rather than neutral; and with one sell-family signal among four the
confidence is Low, not VeryHigh. -/
theorem constant_series_scenario_cex :
    (calculate_all_indicators (List.replicate 30 (100 : ℚ))).atr_pct = some (FVal.fin 2) ∧
    some (FVal.fin 2) ≠ some (FVal.fin 0) ∧
    ((analyze_asset (List.replicate 30 (100 : ℚ)) "BTC" "crypto" 0
        false).recommendations.short_term.map TFResult.signal) = some Sig.strong_sell ∧
    Sig.strong_sell ≠ Sig.neutral ∧
    ((analyze_asset (List.replicate 30 (100 : ℚ)) "BTC" "crypto" 0 false).overall.map
      OverallScore.confidence) = some Conf.low ∧
    Conf.low ≠ Conf.veryHigh := by
  decide

/-- C3 amended: on the constant 30-sample series at price 100, SMA(10),
SMA(20), EMA(10) and EMA(20) all equal the price and the Bollinger bands
collapse onto it, as claimed; but RSI is NaN (0/0), atr_pct is exactly 2 (in
exact arithmetic) because of the synthetic one-percent high/low proxies, the
SignalInterpreter consensus is neutral while the interpreter votes sell for
MACD, the intraday, medium-term and long-term signals are neutral but the
short-term signal is strong_sell (score -5), and the overall result is sell
with score -8/5 and confidence Low. -/
theorem constant_series_scenario :
    (calculate_all_indicators (List.replicate 30 (100 : ℚ))).sma_10 =
      some (FVal.fin 100) ∧
    (calculate_all_indicators (List.replicate 30 (100 : ℚ))).sma_20 =
      some (FVal.fin 100) ∧
    (calculate_all_indicators (List.replicate 30 (100 : ℚ))).ema_10 =
      some (FVal.fin 100) ∧
    (calculate_all_indicators (List.replicate 30 (100 : ℚ))).ema_20 =
      some (FVal.fin 100) ∧
    (calculate_all_indicators (List.replicate 30 (100 : ℚ))).bb_upper =
      some (FVal.fin 100) ∧
    (calculate_all_indicators (List.replicate 30 (100 : ℚ))).bb_middle =
      some (FVal.fin 100) ∧
    (calculate_all_indicators (List.replicate 30 (100 : ℚ))).bb_lower =
      some (FVal.fin 100) ∧
    (calculate_all_indicators (List.replicate 30 (100 : ℚ))).rsi = some FVal.nan ∧
    (calculate_all_indicators (List.replicate 30 (100 : ℚ))).atr_pct =
      some (FVal.fin 2) ∧
    (get_indicator_signals (calculate_all_indicators
      (List.replicate 30 (100 : ℚ)))).consensus = Vote.neutral ∧
    (get_indicator_signals (calculate_all_indicators
      (List.replicate 30 (100 : ℚ)))).macd = some Vote.sell ∧
    ((analyze_asset (List.replicate 30 (100 : ℚ)) "BTC" "crypto" 0
        false).recommendations.intraday.map TFResult.signal) = some Sig.neutral ∧
    ((analyze_asset (List.replicate 30 (100 : ℚ)) "BTC" "crypto" 0
        false).recommendations.short_term.map TFResult.signal) = some Sig.strong_sell ∧
    ((analyze_asset (List.replicate 30 (100 : ℚ)) "BTC" "crypto" 0
        false).recommendations.medium_term.map TFResult.signal) = some Sig.neutral ∧
    ((analyze_asset (List.replicate 30 (100 : ℚ)) "BTC" "crypto" 0
        false).recommendations.long_term.map TFResult.signal) = some Sig.neutral ∧
    ((analyze_asset (List.replicate 30 (100 : ℚ)) "BTC" "crypto" 0 false).overall.map
      OverallScore.score) = some (-8/5 : ℚ) ∧
    ((analyze_asset (List.replicate 30 (100 : ℚ)) "BTC" "crypto" 0 false).overall.map
      OverallScore.signal) = some Sig.sell ∧
    ((analyze_asset (List.replicate 30 (100 : ℚ)) "BTC" "crypto" 0 false).overall.map
      OverallScore.confidence) = some Conf.low := by
  decide

end KernelEvaluation

end FinanceMonitor
